import Mathlib

/-!
Verification of the gopcap .pcap decoder against its specification.

The Go sources are shallowly embedded: a byte stream (`io.Reader` backed by
a `bytes.Reader` / `io.LimitReader`) is a `List Nat` of byte values, and every
`ReadFrom` method becomes a function that threads the remaining bytes
explicitly.  Slice-based `FromBytes` methods become functions on byte lists.
Machine integers are `Nat` with explicit `% 2^w` at the operations where the
Go code performs fixed-width arithmetic or conversions.  Go runtime panics
(out-of-range slice indexing or stores) are modelled by the dedicated
`indexOutOfRange` error value.
-/

namespace Gopcap

/-- A byte stream or byte slice: each element is one byte value. -/
abbrev Bytes := List Nat

/-- The error values that can be produced by the embedded code: the four
package-level errors of gopcap (`NotAPcapFile`, `InsufficientLength`,
`UnexpectedEOF`, `IncorrectPacket`), the standard-library sentinels `io.EOF`
and `io.ErrUnexpectedEOF`, and `indexOutOfRange` standing for a Go runtime
panic from slice indexing. -/
inductive GoError where
  | NotAPcapFile
  | InsufficientLength
  | UnexpectedEOF
  | IncorrectPacket
  | ioEOF
  | ioUnexpectedEOF
  | indexOutOfRange
deriving DecidableEq

/-- The `binary.ByteOrder` values used by the decoder. -/
inductive ByteOrder where
  | big
  | little
deriving DecidableEq

/-- Byte order used inside already-dispatched packet payloads
(`networkByteOrder = binary.BigEndian`). -/
def networkByteOrder : ByteOrder := ByteOrder.big

/-- Value of a 16-bit integer assembled from two bytes in the given order. -/
def u16val (o : ByteOrder) (b0 b1 : Nat) : Nat :=
  match o with
  | .big => (b0 * 256 + b1) % 65536
  | .little => (b1 * 256 + b0) % 65536

/-- Value of a 32-bit integer assembled from four bytes in the given order. -/
def u32val (o : ByteOrder) (b0 b1 b2 b3 : Nat) : Nat :=
  match o with
  | .big => (((b0 * 256 + b1) * 256 + b2) * 256 + b3) % 4294967296
  | .little => (((b3 * 256 + b2) * 256 + b1) * 256 + b0) % 4294967296

/-- `binary.Read` into a `uint8`: via `io.ReadFull`, end of input with zero
bytes read is `io.EOF`. -/
def readU8 : Bytes → Except GoError (Nat × Bytes)
  | [] => .error .ioEOF
  | b :: rest => .ok (b % 256, rest)

/-- `binary.Read` into a `uint16`: `io.ReadFull` reports `io.EOF` on zero
bytes and `io.ErrUnexpectedEOF` on a partial read. -/
def readU16 (o : ByteOrder) : Bytes → Except GoError (Nat × Bytes)
  | b0 :: b1 :: rest => .ok (u16val o b0 b1, rest)
  | [] => .error .ioEOF
  | _ => .error .ioUnexpectedEOF

/-- `binary.Read` into a `uint32`. -/
def readU32 (o : ByteOrder) : Bytes → Except GoError (Nat × Bytes)
  | b0 :: b1 :: b2 :: b3 :: rest => .ok (u32val o b0 b1 b2 b3, rest)
  | [] => .error .ioEOF
  | _ => .error .ioUnexpectedEOF

/-- `binary.Read` into an `int32` (two's-complement interpretation of the
32-bit value). -/
def readI32 (o : ByteOrder) (s : Bytes) : Except GoError (Int × Bytes) :=
  match readU32 o s with
  | .error e => .error e
  | .ok (v, rest) =>
      .ok (if v < 2147483648 then (v : Int) else (v : Int) - 4294967296, rest)

/-- `binary.Read` into a fixed-size `[n]byte` array. -/
def readArr (n : Nat) (s : Bytes) : Except GoError (Bytes × Bytes) :=
  if s.length = 0 then .error .ioEOF
  else if s.length < n then .error .ioUnexpectedEOF
  else .ok (s.take n, s.drop n)

/-- Go slicing `data[lo:hi]`.  Out-of-range bounds are a runtime panic,
modelled as `indexOutOfRange`.  (Go checks `hi` against the slice capacity,
which the embedding approximates by the slice length.) -/
def goSlice (data : Bytes) (lo hi : Nat) : Except GoError Bytes :=
  if lo ≤ hi ∧ hi ≤ data.length then .ok ((data.take hi).drop lo)
  else .error .indexOutOfRange

/-- gopcap's `getUint16`: a two-byte slice as a big-endian `uint16`, the two
bytes swapped when `flipped` is set. -/
def getUint16 (buf : Bytes) (flipped : Bool) : Nat :=
  let first : Nat := if flipped then 1 else 0
  let second : Nat := if flipped then 0 else 1
  ((buf.getD first 0) * 256 + buf.getD second 0) % 65536

/-- gopcap's `getUint32`: a four-byte slice as a big-endian `uint32`, byte
order reversed when `flipped` is set. -/
def getUint32 (buf : Bytes) (flipped : Bool) : Nat :=
  let b : Nat → Nat := fun i => buf.getD i 0
  (if flipped then
    ((((b 3) * 256 + b 2) * 256 + b 1) * 256 + b 0) % 4294967296
  else
    ((((b 0) * 256 + b 1) * 256 + b 2) * 256 + b 3) % 4294967296)

/-! ## SCTP chunk parameters (transport_sctp_parameters.go) -/

/-- The common header for parameters in SCTP chunks. -/
structure SCTPChunkParameterHeader where
  «Type» : Nat
  Length : Nat

/-- `SCTPChunkParameterHeader.FromBytes`. -/
def SCTPChunkParameterHeader.FromBytes (data : Bytes) :
    Except GoError SCTPChunkParameterHeader :=
  if data.length < 4 then .error .InsufficientLength
  else .ok { «Type» := getUint16 (data.take 2) false
             Length := getUint16 ((data.drop 2).take 2) false }

/-- A parameter whose type tag is not understood: the header plus all data
after it. -/
structure SCTPChunkParameterUnknown where
  header : SCTPChunkParameterHeader
  Data : Bytes

/-- `SCTPChunkParameterUnknown.FromBytes`: parses the header from
`data[:4]` and stores `data[4:]`. -/
def SCTPChunkParameterUnknown.FromBytes (data : Bytes) :
    Except GoError SCTPChunkParameterUnknown :=
  match goSlice data 0 4 with
  | .error e => .error e
  | .ok hdrBytes =>
    match SCTPChunkParameterHeader.FromBytes hdrBytes with
    | .error e => .error e
    | .ok h => .ok { header := h, Data := data.drop 4 }

/-- Parameter carrying the IPv4 address of the sending endpoint. -/
structure SCTPChunkParameterIPv4Sender where
  header : SCTPChunkParameterHeader
  Address : Bytes

/-- `SCTPChunkParameterIPv4Sender.FromBytes`. -/
def SCTPChunkParameterIPv4Sender.FromBytes (data : Bytes) :
    Except GoError SCTPChunkParameterIPv4Sender :=
  if data.length < 8 then .error .InsufficientLength
  else
    match SCTPChunkParameterHeader.FromBytes (data.take 4) with
    | .error e => .error e
    | .ok h =>
      if h.Type ≠ 5 then .error .IncorrectPacket
      else .ok { header := h, Address := (data.drop 4).take 4 }

/-- Parameter carrying the IPv6 address of the sending endpoint. -/
structure SCTPChunkParameterIPv6Sender where
  header : SCTPChunkParameterHeader
  Address : Bytes

/-- `SCTPChunkParameterIPv6Sender.FromBytes`. -/
def SCTPChunkParameterIPv6Sender.FromBytes (data : Bytes) :
    Except GoError SCTPChunkParameterIPv6Sender :=
  if data.length < 20 then .error .InsufficientLength
  else
    match SCTPChunkParameterHeader.FromBytes (data.take 4) with
    | .error e => .error e
    | .ok h =>
      if h.Type ≠ 6 then .error .IncorrectPacket
      else .ok { header := h, Address := (data.drop 4).take 16 }

/-- Parameter carrying the suggested cookie lifespan increment. -/
structure SCTPChunkParameterCookieLifespanInc where
  header : SCTPChunkParameterHeader
  Increment : Nat

/-- `SCTPChunkParameterCookieLifespanInc.FromBytes`. -/
def SCTPChunkParameterCookieLifespanInc.FromBytes (data : Bytes) :
    Except GoError SCTPChunkParameterCookieLifespanInc :=
  if data.length < 8 then .error .InsufficientLength
  else
    match SCTPChunkParameterHeader.FromBytes (data.take 4) with
    | .error e => .error e
    | .ok h =>
      if h.Type ≠ 9 then .error .IncorrectPacket
      else .ok { header := h, Increment := getUint32 ((data.drop 4).take 4) false }

/-- Parameter of a HEARTBEAT / HEARTBEAT ACK chunk. -/
structure SCTPChunkParameterHeartbeatInfo where
  header : SCTPChunkParameterHeader
  Info : Bytes

/-- The Go zero value of `SCTPChunkParameterHeartbeatInfo`. -/
def zeroHeartbeatInfo : SCTPChunkParameterHeartbeatInfo :=
  { header := { «Type» := 0, Length := 0 }, Info := [] }

/-- `SCTPChunkParameterHeartbeatInfo.FromBytes`: checks the tag is
`SCTP_CHUNK_PARAMETER_HEARTBEAT_INFO` (1), re-validates the declared length
against the data (16-bit comparison), and extracts `data[4 : 4+Length]`. -/
def SCTPChunkParameterHeartbeatInfo.FromBytes (data : Bytes) :
    Except GoError SCTPChunkParameterHeartbeatInfo :=
  if data.length < 4 then .error .InsufficientLength
  else
    match SCTPChunkParameterHeader.FromBytes (data.take 4) with
    | .error e => .error e
    | .ok h =>
      if h.Type ≠ 1 then .error .IncorrectPacket
      else if data.length % 65536 < (4 + h.Length) % 65536 then
        .error .InsufficientLength
      else
        match goSlice data 4 (4 + h.Length) with
        | .error e => .error e
        | .ok info => .ok { header := h, Info := info }

/-- The `SCTPChunkParameter` interface: one constructor per concrete
implementation. -/
inductive SCTPChunkParameter where
  | unknown (p : SCTPChunkParameterUnknown)
  | ipv4Sender (p : SCTPChunkParameterIPv4Sender)
  | ipv6Sender (p : SCTPChunkParameterIPv6Sender)
  | cookieLifespanInc (p : SCTPChunkParameterCookieLifespanInc)
  | heartbeatInfo (p : SCTPChunkParameterHeartbeatInfo)

/-- `parseSCTPInitChunkParameter`: dispatch on the parameter type tag for
INIT / INIT ACK chunks; tags 5, 6, 9 select concrete decoders, everything
else falls back to the unknown-parameter decoder. -/
def parseSCTPInitChunkParameter (header : SCTPChunkParameterHeader)
    (data : Bytes) : Except GoError SCTPChunkParameter :=
  if header.Type = 5 then
    match SCTPChunkParameterIPv4Sender.FromBytes data with
    | .error e => .error e
    | .ok p => .ok (.ipv4Sender p)
  else if header.Type = 6 then
    match SCTPChunkParameterIPv6Sender.FromBytes data with
    | .error e => .error e
    | .ok p => .ok (.ipv6Sender p)
  else if header.Type = 9 then
    match SCTPChunkParameterCookieLifespanInc.FromBytes data with
    | .error e => .error e
    | .ok p => .ok (.cookieLifespanInc p)
  else
    match SCTPChunkParameterUnknown.FromBytes data with
    | .error e => .error e
    | .ok p => .ok (.unknown p)

/-- `parseSCTPErrorChunkParameter`: the ERROR chunk recognises no concrete
parameter types and always uses the unknown-parameter decoder. -/
def parseSCTPErrorChunkParameter (_header : SCTPChunkParameterHeader)
    (data : Bytes) : Except GoError SCTPChunkParameter :=
  match SCTPChunkParameterUnknown.FromBytes data with
  | .error e => .error e
  | .ok p => .ok (.unknown p)

theorem paramUnknown_ok_length {d : Bytes} {p : SCTPChunkParameterUnknown}
    (h : SCTPChunkParameterUnknown.FromBytes d = .ok p) : 4 ≤ d.length := by
  by_contra hlt
  rw [Nat.not_le] at hlt
  simp [SCTPChunkParameterUnknown.FromBytes, goSlice, Nat.not_le.mpr hlt] at h

theorem paramIPv4_ok_length {d : Bytes} {p : SCTPChunkParameterIPv4Sender}
    (h : SCTPChunkParameterIPv4Sender.FromBytes d = .ok p) : 4 ≤ d.length := by
  by_contra hlt
  rw [Nat.not_le] at hlt
  simp [SCTPChunkParameterIPv4Sender.FromBytes, show d.length < 8 by omega] at h

theorem paramIPv6_ok_length {d : Bytes} {p : SCTPChunkParameterIPv6Sender}
    (h : SCTPChunkParameterIPv6Sender.FromBytes d = .ok p) : 4 ≤ d.length := by
  by_contra hlt
  rw [Nat.not_le] at hlt
  simp [SCTPChunkParameterIPv6Sender.FromBytes, show d.length < 20 by omega] at h

theorem paramCookie_ok_length {d : Bytes} {p : SCTPChunkParameterCookieLifespanInc}
    (h : SCTPChunkParameterCookieLifespanInc.FromBytes d = .ok p) : 4 ≤ d.length := by
  by_contra hlt
  rw [Nat.not_le] at hlt
  simp [SCTPChunkParameterCookieLifespanInc.FromBytes,
    show d.length < 8 by omega] at h

theorem parseSCTPInitChunkParameter_ok_length {h : SCTPChunkParameterHeader}
    {d : Bytes} {p : SCTPChunkParameter}
    (hp : parseSCTPInitChunkParameter h d = .ok p) : 4 ≤ d.length := by
  unfold parseSCTPInitChunkParameter at hp
  split at hp
  · cases hx : SCTPChunkParameterIPv4Sender.FromBytes d <;> rw [hx] at hp <;>
      simp at hp
    exact paramIPv4_ok_length hx
  split at hp
  · cases hx : SCTPChunkParameterIPv6Sender.FromBytes d <;> rw [hx] at hp <;>
      simp at hp
    exact paramIPv6_ok_length hx
  split at hp
  · cases hx : SCTPChunkParameterCookieLifespanInc.FromBytes d <;> rw [hx] at hp <;>
      simp at hp
    exact paramCookie_ok_length hx
  · cases hx : SCTPChunkParameterUnknown.FromBytes d <;> rw [hx] at hp <;>
      simp at hp
    exact paramUnknown_ok_length hx

theorem parseSCTPErrorChunkParameter_ok_length {h : SCTPChunkParameterHeader}
    {d : Bytes} {p : SCTPChunkParameter}
    (hp : parseSCTPErrorChunkParameter h d = .ok p) : 4 ≤ d.length := by
  unfold parseSCTPErrorChunkParameter at hp
  cases hx : SCTPChunkParameterUnknown.FromBytes d <;> rw [hx] at hp <;>
    simp at hp
  exact paramUnknown_ok_length hx

/-- `parseSCTPChunkParameters` instantiated with
`parseSCTPInitChunkParameter`: repeatedly read a parameter header, slice
out exactly `header.Length` bytes for the parameter (no padding is
consumed), and parse that slice. -/
def parseSCTPChunkParametersInit (data : Bytes) :
    Except GoError (List SCTPChunkParameter) :=
  if data.length = 0 then .ok []
  else
    match SCTPChunkParameterHeader.FromBytes data with
    | .error e => .error e
    | .ok header =>
      if data.length < header.Length then .error .InsufficientLength
      else
        match hp : parseSCTPInitChunkParameter header (data.take header.Length) with
        | .error e => .error e
        | .ok p =>
          match parseSCTPChunkParametersInit (data.drop header.Length) with
          | .error e => .error e
          | .ok ps => .ok (p :: ps)
termination_by data.length
decreasing_by
  have h4 := parseSCTPInitChunkParameter_ok_length hp
  simp only [List.length_take, List.length_drop] at h4 ⊢
  omega

/-- `parseSCTPChunkParameters` instantiated with
`parseSCTPErrorChunkParameter`. -/
def parseSCTPChunkParametersError (data : Bytes) :
    Except GoError (List SCTPChunkParameter) :=
  if data.length = 0 then .ok []
  else
    match SCTPChunkParameterHeader.FromBytes data with
    | .error e => .error e
    | .ok header =>
      if data.length < header.Length then .error .InsufficientLength
      else
        match hp : parseSCTPErrorChunkParameter header (data.take header.Length) with
        | .error e => .error e
        | .ok p =>
          match parseSCTPChunkParametersError (data.drop header.Length) with
          | .error e => .error e
          | .ok ps => .ok (p :: ps)
termination_by data.length
decreasing_by
  have h4 := parseSCTPErrorChunkParameter_ok_length hp
  simp only [List.length_take, List.length_drop] at h4 ⊢
  omega

/-! ## SCTP chunks (transport_sctp_chunks.go) -/

/-- The common header for all SCTP chunk types. -/
structure SCTPChunkHeader where
  «Type» : Nat
  Flags : Nat
  Length : Nat

/-- `SCTPChunkHeader.FromBytes`: type byte, flags byte, 16-bit length. -/
def SCTPChunkHeader.FromBytes (data : Bytes) : Except GoError SCTPChunkHeader :=
  if data.length < 4 then .error .InsufficientLength
  else .ok { «Type» := data.getD 0 0 % 256
             Flags := data.getD 1 0 % 256
             Length := getUint16 ((data.drop 2).take 2) false }

/-- A chunk whose type tag is not understood: header plus all data after
the header. -/
structure SCTPChunkUnknown where
  header : SCTPChunkHeader
  Data : Bytes

/-- `SCTPChunkUnknown.FromBytes`: parses the common header from the whole
buffer and stores `data[4:]` (which still contains any padding bytes). -/
def SCTPChunkUnknown.FromBytes (data : Bytes) : Except GoError SCTPChunkUnknown :=
  match SCTPChunkHeader.FromBytes data with
  | .error e => .error e
  | .ok h => .ok { header := h, Data := data.drop 4 }

/-- A DATA chunk. -/
structure SCTPChunkData where
  header : SCTPChunkHeader
  TSN : Nat
  StreamIdentifier : Nat
  StreamSequenceNumber : Nat
  PayloadProtocolIdentifier : Nat
  Data : Bytes

/-- `SCTPChunkData.FromBytes`: fixed 16-byte front, then the rest of the
buffer (including any padding) is the payload. -/
def SCTPChunkData.FromBytes (data : Bytes) : Except GoError SCTPChunkData :=
  if data.length < 16 then .error .InsufficientLength
  else
    match SCTPChunkHeader.FromBytes (data.take 4) with
    | .error e => .error e
    | .ok h =>
      if h.Type ≠ 0 then .error .IncorrectPacket
      else
        .ok { header := h
              TSN := getUint32 ((data.drop 4).take 4) false
              StreamIdentifier := getUint16 ((data.drop 8).take 2) false
              StreamSequenceNumber := getUint16 ((data.drop 10).take 2) false
              PayloadProtocolIdentifier := getUint32 ((data.drop 12).take 4) false
              Data := data.drop 16 }

/-- An INIT chunk. -/
structure SCTPChunkInit where
  header : SCTPChunkHeader
  InitiateTag : Nat
  AdvertisedReceiverWindowCredit : Nat
  NumOutboundStreams : Nat
  NumInboundStreams : Nat
  InitialTSN : Nat
  Parameters : List SCTPChunkParameter

/-- `SCTPChunkInit.FromBytes`: accepts type tags 1 (INIT) and 2 (INIT ACK),
reads the fixed fields, then parses `data[20:Length]` as parameters. -/
def SCTPChunkInit.FromBytes (data : Bytes) : Except GoError SCTPChunkInit :=
  if data.length < 20 then .error .InsufficientLength
  else
    match SCTPChunkHeader.FromBytes (data.take 4) with
    | .error e => .error e
    | .ok h =>
      if h.Type ≠ 1 ∧ h.Type ≠ 2 then .error .IncorrectPacket
      else
        match goSlice data 20 h.Length with
        | .error e => .error e
        | .ok body =>
          match parseSCTPChunkParametersInit body with
          | .error e => .error e
          | .ok ps =>
            .ok { header := h
                  InitiateTag := getUint32 ((data.drop 4).take 4) false
                  AdvertisedReceiverWindowCredit := getUint32 ((data.drop 8).take 4) false
                  NumOutboundStreams := getUint16 ((data.drop 12).take 2) false
                  NumInboundStreams := getUint16 ((data.drop 14).take 2) false
                  InitialTSN := getUint32 ((data.drop 16).take 4) false
                  Parameters := ps }

/-- An INIT ACK chunk.  In the source this is the Go type definition
`type SCTPChunkInitAck SCTPChunkInit`: it shares the fields of
`SCTPChunkInit` but, being a defined type, it does not inherit the methods
declared directly on `SCTPChunkInit`. -/
abbrev SCTPChunkInitAck := SCTPChunkInit

/-- The `FromBytes` that `*SCTPChunkInitAck` actually exposes: the method
promoted from the embedded `SCTPChunkHeader`.  It parses only the 4-byte
common header and leaves every other field at its zero value — there is no
type-tag re-validation. -/
def SCTPChunkInitAck.FromBytes (data : Bytes) : Except GoError SCTPChunkInitAck :=
  match SCTPChunkHeader.FromBytes data with
  | .error e => .error e
  | .ok h =>
    .ok { header := h
          InitiateTag := 0
          AdvertisedReceiverWindowCredit := 0
          NumOutboundStreams := 0
          NumInboundStreams := 0
          InitialTSN := 0
          Parameters := [] }

/-- A SACK chunk. -/
structure SCTPChunkSack where
  header : SCTPChunkHeader
  CumulativeTSNACK : Nat
  AdvertisedReceivedWindowCredit : Nat
  NumGapACKBlocks : Nat
  NumDuplicateTSNs : Nat
  GapACKBlocks : List Nat
  DuplicateTSNs : List Nat

/-- The gap-ACK-block loop of `SCTPChunkSack.FromBytes`: `remaining` counts
the iterations left of `for idx := 0; idx < NumGapACKBlocks*2; idx++`, each
storing a 16-bit value read at `offset` into slot `idx` of `arr`.  A store
outside the bounds of `arr`, like an out-of-range slice read, is a runtime
panic (`indexOutOfRange`). -/
def sackGapLoop (data : Bytes) (arr : List Nat) (offset idx remaining : Nat) :
    Except GoError (List Nat × Nat) :=
  match remaining with
  | 0 => .ok (arr, offset)
  | r + 1 =>
    match goSlice data offset (offset + 2) with
    | .error e => .error e
    | .ok two =>
      if idx < arr.length then
        sackGapLoop data (arr.set idx (getUint16 two false)) (offset + 2) (idx + 1) r
      else .error .indexOutOfRange

/-- The duplicate-TSN loop of `SCTPChunkSack.FromBytes`: stores 32-bit
values read at `offset` into consecutive slots of `arr`. -/
def sackDupLoop (data : Bytes) (arr : List Nat) (offset idx remaining : Nat) :
    Except GoError (List Nat × Nat) :=
  match remaining with
  | 0 => .ok (arr, offset)
  | r + 1 =>
    match goSlice data offset (offset + 4) with
    | .error e => .error e
    | .ok four =>
      if idx < arr.length then
        sackDupLoop data (arr.set idx (getUint32 four false)) (offset + 4) (idx + 1) r
      else .error .indexOutOfRange

/-- `SCTPChunkSack.FromBytes`: fixed fields, a 16-bit-arithmetic length
check, then a `NumGapACKBlocks`-element array filled by `NumGapACKBlocks*2`
iterations and a `NumDuplicateTSNs`-element array. -/
def SCTPChunkSack.FromBytes (data : Bytes) : Except GoError SCTPChunkSack :=
  if data.length < 16 then .error .InsufficientLength
  else
    match SCTPChunkHeader.FromBytes (data.take 4) with
    | .error e => .error e
    | .ok h =>
      if h.Type ≠ 3 then .error .IncorrectPacket
      else
        let numGap := getUint16 ((data.drop 12).take 2) false
        let numDup := getUint16 ((data.drop 14).take 2) false
        if data.length % 65536 < (16 + 4 * numGap + 4 * numDup) % 65536 then
          .error .InsufficientLength
        else
          match sackGapLoop data (List.replicate numGap 0) 16 0 ((numGap * 2) % 65536) with
          | .error e => .error e
          | .ok (gaps, offset) =>
            match sackDupLoop data (List.replicate numDup 0) offset 0 numDup with
            | .error e => .error e
            | .ok (dups, _) =>
              .ok { header := h
                    CumulativeTSNACK := getUint32 ((data.drop 4).take 4) false
                    AdvertisedReceivedWindowCredit := getUint32 ((data.drop 8).take 4) false
                    NumGapACKBlocks := numGap
                    NumDuplicateTSNs := numDup
                    GapACKBlocks := gaps
                    DuplicateTSNs := dups }

/-- A HEARTBEAT chunk. -/
structure SCTPChunkHeartbeat where
  header : SCTPChunkHeader
  Parameter : SCTPChunkParameterHeartbeatInfo

/-- `SCTPChunkHeartbeat.FromBytes`: accepts type tags 4 (HEARTBEAT) and 5
(HEARTBEAT ACK), then parses `data[4:Length]` as a heartbeat-info
parameter. -/
def SCTPChunkHeartbeat.FromBytes (data : Bytes) : Except GoError SCTPChunkHeartbeat :=
  if data.length < 4 then .error .InsufficientLength
  else
    match SCTPChunkHeader.FromBytes (data.take 4) with
    | .error e => .error e
    | .ok h =>
      if h.Type ≠ 4 ∧ h.Type ≠ 5 then .error .IncorrectPacket
      else
        match goSlice data 4 h.Length with
        | .error e => .error e
        | .ok body =>
          match SCTPChunkParameterHeartbeatInfo.FromBytes body with
          | .error e => .error e
          | .ok p => .ok { header := h, Parameter := p }

/-- A HEARTBEAT ACK chunk: the Go type definition
`type SCTPChunkHeartbeatAck SCTPChunkHeartbeat`. -/
abbrev SCTPChunkHeartbeatAck := SCTPChunkHeartbeat

/-- The `FromBytes` that `*SCTPChunkHeartbeatAck` actually exposes: the
method promoted from the embedded `SCTPChunkHeader`, which parses only the
4-byte common header, performs no type-tag check, and never touches the
heartbeat parameter. -/
def SCTPChunkHeartbeatAck.FromBytes (data : Bytes) :
    Except GoError SCTPChunkHeartbeatAck :=
  match SCTPChunkHeader.FromBytes data with
  | .error e => .error e
  | .ok h => .ok { header := h, Parameter := zeroHeartbeatInfo }

/-- An ABORT chunk. -/
structure SCTPChunkAbort where
  header : SCTPChunkHeader
  Errors : Nat

/-- `SCTPChunkAbort.FromBytes`. -/
def SCTPChunkAbort.FromBytes (data : Bytes) : Except GoError SCTPChunkAbort :=
  if data.length < 8 then .error .InsufficientLength
  else
    match SCTPChunkHeader.FromBytes (data.take 4) with
    | .error e => .error e
    | .ok h =>
      if h.Type ≠ 6 then .error .IncorrectPacket
      else .ok { header := h, Errors := getUint32 ((data.drop 4).take 4) false }

/-- A SHUTDOWN chunk. -/
structure SCTPChunkShutdown where
  header : SCTPChunkHeader
  CumulativeTSNACK : Nat

/-- `SCTPChunkShutdown.FromBytes`. -/
def SCTPChunkShutdown.FromBytes (data : Bytes) : Except GoError SCTPChunkShutdown :=
  if data.length < 8 then .error .InsufficientLength
  else
    match SCTPChunkHeader.FromBytes (data.take 4) with
    | .error e => .error e
    | .ok h =>
      if h.Type ≠ 7 then .error .IncorrectPacket
      else .ok { header := h, CumulativeTSNACK := getUint32 ((data.drop 4).take 4) false }

/-- A SHUTDOWN ACK chunk. -/
structure SCTPChunkShutdownAck where
  header : SCTPChunkHeader

/-- `SCTPChunkShutdownAck.FromBytes`. -/
def SCTPChunkShutdownAck.FromBytes (data : Bytes) :
    Except GoError SCTPChunkShutdownAck :=
  if data.length < 4 then .error .InsufficientLength
  else
    match SCTPChunkHeader.FromBytes (data.take 4) with
    | .error e => .error e
    | .ok h =>
      if h.Type ≠ 8 then .error .IncorrectPacket
      else .ok { header := h }

/-- An ERROR chunk. -/
structure SCTPChunkError where
  header : SCTPChunkHeader
  Parameters : List SCTPChunkParameter

/-- `SCTPChunkError.FromBytes`: parses `data[4:Length]` as parameters with
the always-unknown parameter dispatcher. -/
def SCTPChunkError.FromBytes (data : Bytes) : Except GoError SCTPChunkError :=
  if data.length < 4 then .error .InsufficientLength
  else
    match SCTPChunkHeader.FromBytes (data.take 4) with
    | .error e => .error e
    | .ok h =>
      if h.Type ≠ 9 then .error .IncorrectPacket
      else
        match goSlice data 4 h.Length with
        | .error e => .error e
        | .ok body =>
          match parseSCTPChunkParametersError body with
          | .error e => .error e
          | .ok ps => .ok { header := h, Parameters := ps }

/-- A COOKIE ECHO chunk. -/
structure SCTPChunkCookieEcho where
  header : SCTPChunkHeader
  Cookie : Bytes

/-- `SCTPChunkCookieEcho.FromBytes`: validates the declared length against
the buffer (16-bit comparison) and stores `data[4:Length]`. -/
def SCTPChunkCookieEcho.FromBytes (data : Bytes) :
    Except GoError SCTPChunkCookieEcho :=
  if data.length < 4 then .error .InsufficientLength
  else
    match SCTPChunkHeader.FromBytes (data.take 4) with
    | .error e => .error e
    | .ok h =>
      if h.Type ≠ 10 then .error .IncorrectPacket
      else if data.length % 65536 < h.Length then .error .InsufficientLength
      else
        match goSlice data 4 h.Length with
        | .error e => .error e
        | .ok cookie => .ok { header := h, Cookie := cookie }

/-- A COOKIE ACK chunk. -/
structure SCTPChunkCookieAck where
  header : SCTPChunkHeader

/-- `SCTPChunkCookieAck.FromBytes`. -/
def SCTPChunkCookieAck.FromBytes (data : Bytes) :
    Except GoError SCTPChunkCookieAck :=
  if data.length < 4 then .error .InsufficientLength
  else
    match SCTPChunkHeader.FromBytes (data.take 4) with
    | .error e => .error e
    | .ok h =>
      if h.Type ≠ 11 then .error .IncorrectPacket
      else .ok { header := h }

/-- A SHUTDOWN COMPLETE chunk. -/
structure SCTPChunkShutdownComplete where
  header : SCTPChunkHeader

/-- `SCTPChunkShutdownComplete.FromBytes`. -/
def SCTPChunkShutdownComplete.FromBytes (data : Bytes) :
    Except GoError SCTPChunkShutdownComplete :=
  if data.length < 4 then .error .InsufficientLength
  else
    match SCTPChunkHeader.FromBytes (data.take 4) with
    | .error e => .error e
    | .ok h =>
      if h.Type ≠ 14 then .error .IncorrectPacket
      else .ok { header := h }

/-- The `SCTPChunk` interface: one constructor per concrete chunk type. -/
inductive SCTPChunk where
  | dataChunk (c : SCTPChunkData)
  | init (c : SCTPChunkInit)
  | initAck (c : SCTPChunkInitAck)
  | sack (c : SCTPChunkSack)
  | heartbeat (c : SCTPChunkHeartbeat)
  | heartbeatAck (c : SCTPChunkHeartbeatAck)
  | abort (c : SCTPChunkAbort)
  | shutdown (c : SCTPChunkShutdown)
  | shutdownAck (c : SCTPChunkShutdownAck)
  | errorChunk (c : SCTPChunkError)
  | cookieEcho (c : SCTPChunkCookieEcho)
  | cookieAck (c : SCTPChunkCookieAck)
  | shutdownComplete (c : SCTPChunkShutdownComplete)
  | unknown (c : SCTPChunkUnknown)

/-- `parseSCTPChunk`: dispatch on the chunk type tag from the already-parsed
header, then run the selected variant decoder on the chunk's bytes.
Unrecognised tags select `SCTPChunkUnknown`. -/
def parseSCTPChunk (header : SCTPChunkHeader) (data : Bytes) :
    Except GoError SCTPChunk :=
  if header.Type = 0 then (SCTPChunkData.FromBytes data).map .dataChunk
  else if header.Type = 1 then (SCTPChunkInit.FromBytes data).map .init
  else if header.Type = 2 then (SCTPChunkInitAck.FromBytes data).map .initAck
  else if header.Type = 3 then (SCTPChunkSack.FromBytes data).map .sack
  else if header.Type = 4 then (SCTPChunkHeartbeat.FromBytes data).map .heartbeat
  else if header.Type = 5 then (SCTPChunkHeartbeatAck.FromBytes data).map .heartbeatAck
  else if header.Type = 6 then (SCTPChunkAbort.FromBytes data).map .abort
  else if header.Type = 7 then (SCTPChunkShutdown.FromBytes data).map .shutdown
  else if header.Type = 8 then (SCTPChunkShutdownAck.FromBytes data).map .shutdownAck
  else if header.Type = 9 then (SCTPChunkError.FromBytes data).map .errorChunk
  else if header.Type = 10 then (SCTPChunkCookieEcho.FromBytes data).map .cookieEcho
  else if header.Type = 11 then (SCTPChunkCookieAck.FromBytes data).map .cookieAck
  else if header.Type = 14 then (SCTPChunkShutdownComplete.FromBytes data).map .shutdownComplete
  else (SCTPChunkUnknown.FromBytes data).map .unknown

set_option maxHeartbeats 1000000 in
theorem parseSCTPChunk_ok_length {h : SCTPChunkHeader} {d : Bytes}
    {c : SCTPChunk} (hc : parseSCTPChunk h d = .ok c) : 4 ≤ d.length := by
  by_contra hlt
  rw [Nat.not_le] at hlt
  have h4 : SCTPChunkHeader.FromBytes d = .error .InsufficientLength := by
    simp [SCTPChunkHeader.FromBytes, hlt]
  have hA : SCTPChunkData.FromBytes d = .error .InsufficientLength := by
    simp [SCTPChunkData.FromBytes, show d.length < 16 by omega]
  have hB : SCTPChunkInit.FromBytes d = .error .InsufficientLength := by
    simp [SCTPChunkInit.FromBytes, show d.length < 20 by omega]
  have hC : SCTPChunkInitAck.FromBytes d = .error .InsufficientLength := by
    simp [SCTPChunkInitAck.FromBytes, h4]
  have hD : SCTPChunkSack.FromBytes d = .error .InsufficientLength := by
    simp [SCTPChunkSack.FromBytes, show d.length < 16 by omega]
  have hE : SCTPChunkHeartbeat.FromBytes d = .error .InsufficientLength := by
    simp [SCTPChunkHeartbeat.FromBytes, hlt]
  have hF : SCTPChunkHeartbeatAck.FromBytes d = .error .InsufficientLength := by
    simp [SCTPChunkHeartbeatAck.FromBytes, h4]
  have hG : SCTPChunkAbort.FromBytes d = .error .InsufficientLength := by
    simp [SCTPChunkAbort.FromBytes, show d.length < 8 by omega]
  have hH : SCTPChunkShutdown.FromBytes d = .error .InsufficientLength := by
    simp [SCTPChunkShutdown.FromBytes, show d.length < 8 by omega]
  have hI : SCTPChunkShutdownAck.FromBytes d = .error .InsufficientLength := by
    simp [SCTPChunkShutdownAck.FromBytes, hlt]
  have hJ : SCTPChunkError.FromBytes d = .error .InsufficientLength := by
    simp [SCTPChunkError.FromBytes, hlt]
  have hK : SCTPChunkCookieEcho.FromBytes d = .error .InsufficientLength := by
    simp [SCTPChunkCookieEcho.FromBytes, hlt]
  have hL : SCTPChunkCookieAck.FromBytes d = .error .InsufficientLength := by
    simp [SCTPChunkCookieAck.FromBytes, hlt]
  have hM : SCTPChunkShutdownComplete.FromBytes d = .error .InsufficientLength := by
    simp [SCTPChunkShutdownComplete.FromBytes, hlt]
  have hN : SCTPChunkUnknown.FromBytes d = .error .InsufficientLength := by
    simp [SCTPChunkUnknown.FromBytes, h4]
  unfold parseSCTPChunk at hc
  rw [hA, hB, hC, hD, hE, hF, hG, hH, hI, hJ, hK, hL, hM, hN] at hc
  simp only [Except.map, ite_self] at hc
  exact Except.noConfusion hc

/-- `parseSCTPChunks`: repeatedly parse a chunk header, round the declared
length up to the next multiple of 4 in 16-bit arithmetic, check that many
bytes remain, slice them out (padding included) and parse them as one
chunk. -/
def parseSCTPChunks (data : Bytes) : Except GoError (List SCTPChunk) :=
  if data.length = 0 then .ok []
  else
    match SCTPChunkHeader.FromBytes data with
    | .error e => .error e
    | .ok header =>
      let actualLength := (header.Length + (4 - header.Length % 4) % 4) % 65536
      if data.length < actualLength then .error .InsufficientLength
      else
        match hc : parseSCTPChunk header (data.take actualLength) with
        | .error e => .error e
        | .ok chunk =>
          match parseSCTPChunks (data.drop actualLength) with
          | .error e => .error e
          | .ok chunks => .ok (chunk :: chunks)
termination_by data.length
decreasing_by
  have h4 := parseSCTPChunk_ok_length hc
  simp only [List.length_take, List.length_drop] at h4 ⊢
  omega

/-! ## Transport layer (transport.go, transport_udp.go, transport_sctp.go,
TCP files) -/

/-- A transport-layer packet that gopcap does not understand: the whole
remaining payload, uninterpreted. -/
structure UnknownTransport where
  data : Bytes

/-- `UnknownTransport.ReadFrom`: `ioutil.ReadAll` of the remaining bytes. -/
def UnknownTransport.ReadFrom (s : Bytes) : UnknownTransport × Option GoError :=
  ({ data := s }, none)

/-- A UDP datagram. -/
structure UDPDatagram where
  SourcePort : Nat
  DestinationPort : Nat
  Length : Nat
  Checksum : Nat
  data : Bytes

/-- The Go zero value of `UDPDatagram`. -/
def zeroUDPDatagram : UDPDatagram :=
  { SourcePort := 0, DestinationPort := 0, Length := 0, Checksum := 0, data := [] }

/-- `UDPDatagram.FromBytes` (transport_udp.go): an 8-byte header, then all
remaining bytes are stored as the payload; the declared length field is
recorded but not compared against the available data. -/
def UDPDatagram.FromBytes (data : Bytes) : Except GoError UDPDatagram :=
  if data.length < 8 then .error .InsufficientLength
  else
    .ok { SourcePort := getUint16 (data.take 2) false
          DestinationPort := getUint16 ((data.drop 2).take 2) false
          Length := getUint16 ((data.drop 4).take 2) false
          Checksum := getUint16 ((data.drop 6).take 2) false
          data := data.drop 8 }

/-- Modelled from the spec: `UDPDatagram.ReadFrom` is not among the source
files (only its `FromBytes` counterpart and a test that calls `ReadFrom`
are).  Per spec section 4.5, UDP has a fixed 8-byte header of ports, length
and checksum, the payload is `length - 8` bytes (16-bit arithmetic), and a
short read fails with InsufficientLength. -/
def UDPDatagram.ReadFrom (s : Bytes) : UDPDatagram × Option GoError :=
  let u := zeroUDPDatagram
  match readU16 networkByteOrder s with
  | .error e => (u, some e)
  | .ok (v, s) =>
  let u := { u with SourcePort := v }
  match readU16 networkByteOrder s with
  | .error e => (u, some e)
  | .ok (v, s) =>
  let u := { u with DestinationPort := v }
  match readU16 networkByteOrder s with
  | .error e => (u, some e)
  | .ok (v, s) =>
  let u := { u with Length := v }
  match readU16 networkByteOrder s with
  | .error e => (u, some e)
  | .ok (v, s) =>
  let u := { u with Checksum := v }
  let payloadLen := (u.Length + 65536 - 8) % 65536
  if s.length < payloadLen then (u, some .InsufficientLength)
  else ({ u with data := s.take payloadLen }, none)

/-- A TCP segment. -/
structure TCPSegment where
  SourcePort : Nat
  DestinationPort : Nat
  SequenceNumber : Nat
  AckNumber : Nat
  HeaderSize : Nat
  NS : Bool
  CWR : Bool
  ECE : Bool
  URG : Bool
  ACK : Bool
  PSH : Bool
  RST : Bool
  SYN : Bool
  FIN : Bool
  WindowSize : Nat
  Checksum : Nat
  UrgentOffset : Nat
  OptionData : Bytes
  data : Bytes

/-- The Go zero value of `TCPSegment`. -/
def zeroTCPSegment : TCPSegment :=
  { SourcePort := 0, DestinationPort := 0, SequenceNumber := 0, AckNumber := 0
    HeaderSize := 0, NS := false, CWR := false, ECE := false, URG := false
    ACK := false, PSH := false, RST := false, SYN := false, FIN := false
    WindowSize := 0, Checksum := 0, UrgentOffset := 0, OptionData := [], data := [] }

/-- `TCPSegment.FromBytes`: 20-byte fixed header; the option length is
`(HeaderSize - 5) * 4` computed in unsigned 8-bit arithmetic. -/
def TCPSegment.FromBytes (data : Bytes) : Except GoError TCPSegment :=
  if data.length < 20 then .error .InsufficientLength
  else
    let b12 := data.getD 12 0 % 256
    let flags := data.getD 13 0 % 256
    let headerSize := b12 >>> 4
    let extraBytes := (((headerSize + 256 - 5) % 256) * 4) % 256
    let rest := data.drop 20
    if rest.length < extraBytes then .error .InsufficientLength
    else
      .ok { SourcePort := getUint16 (data.take 2) false
            DestinationPort := getUint16 ((data.drop 2).take 2) false
            SequenceNumber := getUint32 ((data.drop 4).take 4) false
            AckNumber := getUint32 ((data.drop 8).take 4) false
            HeaderSize := headerSize
            NS := b12 &&& 1 != 0
            CWR := flags &&& 128 != 0
            ECE := flags &&& 64 != 0
            URG := flags &&& 32 != 0
            ACK := flags &&& 16 != 0
            PSH := flags &&& 8 != 0
            RST := flags &&& 4 != 0
            SYN := flags &&& 2 != 0
            FIN := flags &&& 1 != 0
            WindowSize := getUint16 ((data.drop 14).take 2) false
            Checksum := getUint16 ((data.drop 16).take 2) false
            UrgentOffset := getUint16 ((data.drop 18).take 2) false
            OptionData := rest.take extraBytes
            data := rest.drop extraBytes }

/-- `TCPSegment.ReadFrom`: the reader-based decoder with the same field
layout; a short option read fails with InsufficientLength, EOF on the
option read is otherwise tolerated, and the rest of the stream is the
payload. -/
def TCPSegment.ReadFrom (s : Bytes) : TCPSegment × Option GoError :=
  let t := zeroTCPSegment
  match readU16 networkByteOrder s with
  | .error e => (t, some e)
  | .ok (v, s) =>
  let t := { t with SourcePort := v }
  match readU16 networkByteOrder s with
  | .error e => (t, some e)
  | .ok (v, s) =>
  let t := { t with DestinationPort := v }
  match readU32 networkByteOrder s with
  | .error e => (t, some e)
  | .ok (v, s) =>
  let t := { t with SequenceNumber := v }
  match readU32 networkByteOrder s with
  | .error e => (t, some e)
  | .ok (v, s) =>
  let t := { t with AckNumber := v }
  match readArr 2 s with
  | .error e => (t, some e)
  | .ok (offsetAndFlags, s) =>
  match readU16 networkByteOrder s with
  | .error e => (t, some e)
  | .ok (v, s) =>
  let t := { t with WindowSize := v }
  match readU16 networkByteOrder s with
  | .error e => (t, some e)
  | .ok (v, s) =>
  let t := { t with Checksum := v }
  match readU16 networkByteOrder s with
  | .error e => (t, some e)
  | .ok (v, s) =>
  let t := { t with UrgentOffset := v }
  let f0 := offsetAndFlags.getD 0 0 % 256
  let f1 := offsetAndFlags.getD 1 0 % 256
  let t := { t with
    HeaderSize := f0 >>> 4
    NS := f0 &&& 1 != 0
    CWR := f1 &&& 128 != 0
    ECE := f1 &&& 64 != 0
    URG := f1 &&& 32 != 0
    ACK := f1 &&& 16 != 0
    PSH := f1 &&& 8 != 0
    RST := f1 &&& 4 != 0
    SYN := f1 &&& 2 != 0
    FIN := f1 &&& 1 != 0 }
  let extraBytes := (((t.HeaderSize + 256 - 5) % 256) * 4) % 256
  let readCount := min extraBytes s.length
  let t := { t with OptionData := s.take extraBytes ++ List.replicate (extraBytes - readCount) 0 }
  if readCount < extraBytes then (t, some .InsufficientLength)
  else ({ t with data := s.drop extraBytes }, none)

/-- An SCTP segment. -/
structure SCTPSegment where
  SourcePort : Nat
  DestinationPort : Nat
  VerificationTag : Nat
  Checksum : Nat
  Chunks : List SCTPChunk

/-- The Go zero value of `SCTPSegment`. -/
def zeroSCTPSegment : SCTPSegment :=
  { SourcePort := 0, DestinationPort := 0, VerificationTag := 0, Checksum := 0
    Chunks := [] }

/-- Modelled from the spec: `readSCTPChunks` is not among the source files
(only its caller `SCTPSegment.ReadFrom` and the slice-based
`parseSCTPChunks` are).  Per spec section 4.5, after the 12-byte common
header all remaining bytes are decoded as the chunk sequence, which is
exactly what `parseSCTPChunks` does on the remaining bytes. -/
def readSCTPChunks (s : Bytes) : Except GoError (List SCTPChunk) :=
  parseSCTPChunks s

/-- `SCTPSegment.ReadFrom` (transport_sctp.go). -/
def SCTPSegment.ReadFrom (s : Bytes) : SCTPSegment × Option GoError :=
  let g := zeroSCTPSegment
  match readU16 networkByteOrder s with
  | .error e => (g, some e)
  | .ok (v, s) =>
  let g := { g with SourcePort := v }
  match readU16 networkByteOrder s with
  | .error e => (g, some e)
  | .ok (v, s) =>
  let g := { g with DestinationPort := v }
  match readU32 networkByteOrder s with
  | .error e => (g, some e)
  | .ok (v, s) =>
  let g := { g with VerificationTag := v }
  match readU32 networkByteOrder s with
  | .error e => (g, some e)
  | .ok (v, s) =>
  let g := { g with Checksum := v }
  match readSCTPChunks s with
  | .error e => (g, some e)
  | .ok chunks => ({ g with Chunks := chunks }, none)

/-- The `TransportLayer` interface: one constructor per concrete
implementation. -/
inductive TransportLayer where
  | tcp (t : TCPSegment)
  | udp (u : UDPDatagram)
  | sctp (g : SCTPSegment)
  | unknown (u : UnknownTransport)

/-- The transport-layer dispatch (`readTransportLayer` in internet.go, with
the protocol tag passed explicitly instead of read from the receiver):
6 = TCP, 17 (0x11) = UDP, 132 (0x84) = SCTP, anything else is the unknown
transport. -/
def readTransportLayer (protocol : Nat) (s : Bytes) :
    TransportLayer × Option GoError :=
  if protocol = 6 then
    let r := TCPSegment.ReadFrom s
    (.tcp r.1, r.2)
  else if protocol = 17 then
    let r := UDPDatagram.ReadFrom s
    (.udp r.1, r.2)
  else if protocol = 132 then
    let r := SCTPSegment.ReadFrom s
    (.sctp r.1, r.2)
  else
    let r := UnknownTransport.ReadFrom s
    (.unknown r.1, r.2)

/-! ## Internet layer (internet.go) -/

/-- An internet-layer packet that gopcap does not understand. -/
structure UnknownINet where
  data : Option TransportLayer

/-- `UnknownINet.ReadFrom`: the payload is an unknown transport holding all
remaining bytes. -/
def UnknownINet.ReadFrom (s : Bytes) : UnknownINet × Option GoError :=
  let r := UnknownTransport.ReadFrom s
  ({ data := some (.unknown r.1) }, r.2)

/-- An unpacked IPv4 packet. -/
structure IPv4Packet where
  IHL : Nat
  DSCP : Nat
  ECN : Nat
  TotalLength : Nat
  ID : Nat
  DontFragment : Bool
  MoreFragments : Bool
  FragmentOffset : Nat
  TTL : Nat
  Protocol : Nat
  Checksum : Nat
  SourceAddress : Bytes
  DestAddress : Bytes
  Options : Bytes
  data : Option TransportLayer

/-- The Go zero value of `IPv4Packet`. -/
def zeroIPv4Packet : IPv4Packet :=
  { IHL := 0, DSCP := 0, ECN := 0, TotalLength := 0, ID := 0
    DontFragment := false, MoreFragments := false, FragmentOffset := 0
    TTL := 0, Protocol := 0, Checksum := 0
    SourceAddress := List.replicate 4 0, DestAddress := List.replicate 4 0
    Options := [], data := none }

/-- `IPv4Packet.ReadFrom`: the fixed 20-byte header, the version-nibble
check, the bit-packed field extractions (including the `uint8` shift in the
fragment-offset computation, which happens before widening to `uint16`),
the optional option bytes, and the length-bounded payload handed to the
transport dispatch. -/
def IPv4Packet.ReadFrom (s : Bytes) : IPv4Packet × Option GoError :=
  let p := zeroIPv4Packet
  match readU8 s with
  | .error e => (p, some e)
  | .ok (versionIHL, s) =>
  match readU8 s with
  | .error e => (p, some e)
  | .ok (dscpecn, s) =>
  match readU16 networkByteOrder s with
  | .error e => (p, some e)
  | .ok (v, s) =>
  let p := { p with TotalLength := v }
  match readU16 networkByteOrder s with
  | .error e => (p, some e)
  | .ok (v, s) =>
  let p := { p with ID := v }
  match readArr 2 s with
  | .error e => (p, some e)
  | .ok (flagsFragment, s) =>
  match readU8 s with
  | .error e => (p, some e)
  | .ok (v, s) =>
  let p := { p with TTL := v }
  match readU8 s with
  | .error e => (p, some e)
  | .ok (v, s) =>
  let p := { p with Protocol := v }
  match readU16 networkByteOrder s with
  | .error e => (p, some e)
  | .ok (v, s) =>
  let p := { p with Checksum := v }
  match readArr 4 s with
  | .error e => (p, some e)
  | .ok (a, s) =>
  let p := { p with SourceAddress := a }
  match readArr 4 s with
  | .error e => (p, some e)
  | .ok (a, s) =>
  let p := { p with DestAddress := a }
  if (versionIHL &&& 0xF0) >>> 4 ≠ 4 then (p, some .IncorrectPacket)
  else
  let f0 := flagsFragment.getD 0 0 % 256
  let f1 := flagsFragment.getD 1 0 % 256
  let p := { p with
    IHL := versionIHL &&& 0x0F
    DSCP := (dscpecn &&& 0xFC) >>> 2
    ECN := dscpecn &&& 0x03
    DontFragment := f0 &&& 0x40 != 0
    MoreFragments := f0 &&& 0x20 != 0
    FragmentOffset := (((f0 &&& 0x1F) <<< 8) % 256 + f1) % 65536 }
  let finish := fun (p : IPv4Packet) (s : Bytes) =>
    let dataLen := (p.TotalLength + 65536 - p.IHL * 4) % 65536
    if s.length < dataLen then (p, some GoError.InsufficientLength)
    else
      let r := readTransportLayer p.Protocol (s.take dataLen)
      ({ p with data := some r.1 }, r.2)
  if p.IHL > 5 then
    let optionLength := (p.IHL - 5) * 4
    let readCount := min optionLength s.length
    let p := { p with Options := s.take optionLength ++ List.replicate (optionLength - readCount) 0 }
    if readCount < optionLength then (p, some .InsufficientLength)
    else finish p (s.drop optionLength)
  else finish p s

/-- An unpacked IPv6 packet. -/
structure IPv6Packet where
  TrafficClass : Nat
  FlowLabel : Nat
  Length : Nat
  NextHeader : Nat
  HopLimit : Nat
  SourceAddress : Bytes
  DestinationAddress : Bytes
  data : Option TransportLayer

/-- The Go zero value of `IPv6Packet`. -/
def zeroIPv6Packet : IPv6Packet :=
  { TrafficClass := 0, FlowLabel := 0, Length := 0, NextHeader := 0
    HopLimit := 0, SourceAddress := List.replicate 16 0
    DestinationAddress := List.replicate 16 0, data := none }

/-- `IPv6Packet.readRemainingHeaders`: no extension headers are supported,
so the next-header tag dispatches directly to the transport layer with the
same tag mapping as the IPv4 path. -/
def IPv6Packet.readRemainingHeaders (nextHeader : Nat) (s : Bytes) :
    TransportLayer × Option GoError :=
  readTransportLayer nextHeader s

/-- `IPv6Packet.ReadFrom`: the fixed 40-byte header, the version-nibble
check, traffic class and flow label extraction, then the remaining bytes
go to the transport dispatch. -/
def IPv6Packet.ReadFrom (s : Bytes) : IPv6Packet × Option GoError :=
  let p := zeroIPv6Packet
  match readArr 4 s with
  | .error e => (p, some e)
  | .ok (startBytes, s) =>
  match readU16 networkByteOrder s with
  | .error e => (p, some e)
  | .ok (v, s) =>
  let p := { p with Length := v }
  match readU8 s with
  | .error e => (p, some e)
  | .ok (v, s) =>
  let p := { p with NextHeader := v }
  match readU8 s with
  | .error e => (p, some e)
  | .ok (v, s) =>
  let p := { p with HopLimit := v }
  match readArr 16 s with
  | .error e => (p, some e)
  | .ok (a, s) =>
  let p := { p with SourceAddress := a }
  match readArr 16 s with
  | .error e => (p, some e)
  | .ok (a, s) =>
  let p := { p with DestinationAddress := a }
  let b0 := startBytes.getD 0 0 % 256
  let b1 := startBytes.getD 1 0 % 256
  let b2 := startBytes.getD 2 0 % 256
  let b3 := startBytes.getD 3 0 % 256
  if (b0 &&& 0xF0) >>> 4 ≠ 6 then (p, some .IncorrectPacket)
  else
  let p := { p with TrafficClass := (((b0 &&& 0x0F) <<< 4) % 256 + ((b1 &&& 0xF0) >>> 4)) % 256 }
  let p := { p with FlowLabel := (((b1 &&& 0x0F) <<< 16) + (b2 <<< 8) + b3) % 4294967296 }
  let r := IPv6Packet.readRemainingHeaders p.NextHeader s
  ({ p with data := some r.1 }, r.2)

/-- The `InternetLayer` interface: one constructor per concrete
implementation. -/
inductive InternetLayer where
  | v4 (p : IPv4Packet)
  | v6 (p : IPv6Packet)
  | unknown (u : UnknownINet)

/-! ## Link layer (link.go) -/

/-- A link-layer packet whose link type gopcap does not understand. -/
structure UnknownLink where
  data : Option InternetLayer

/-- `UnknownLink.ReadFrom`. -/
def UnknownLink.ReadFrom (s : Bytes) : UnknownLink × Option GoError :=
  let r := UnknownINet.ReadFrom s
  ({ data := some (.unknown r.1) }, r.2)

/-- A single Ethernet frame. -/
structure EthernetFrame where
  MACSource : Bytes
  MACDestination : Bytes
  VLANTag : Bytes
  Length : Nat
  EtherType : Nat
  data : Option InternetLayer

/-- The Go zero value of `EthernetFrame`. -/
def zeroEthernetFrame : EthernetFrame :=
  { MACSource := List.replicate 6 0, MACDestination := List.replicate 6 0
    VLANTag := [], Length := 0, EtherType := 0, data := none }

/-- The ether-type dispatch (`readInternetLayer` in link.go, with the
ether-type tag passed explicitly instead of read from the receiver):
0x0800 = IPv4, 0x86DD = IPv6, anything else (including a length-framed
frame whose `EtherType` stayed zero) is the unknown internet layer. -/
def readInternetLayer (etherType : Nat) (s : Bytes) :
    InternetLayer × Option GoError :=
  if etherType = 2048 then
    let r := IPv4Packet.ReadFrom s
    (.v4 r.1, r.2)
  else if etherType = 34525 then
    let r := IPv6Packet.ReadFrom s
    (.v6 r.1, r.2)
  else
    let r := UnknownINet.ReadFrom s
    (.unknown r.1, r.2)

/-- `EthernetFrame.ReadFrom`: destination and source addresses, the
optional 4-byte VLAN tag introduced by the reserved marker 0x8100, the
length-or-ether-type disambiguation at threshold 1536, and the internet
layer dispatch on the resulting `EtherType`. -/
def EthernetFrame.ReadFrom (s : Bytes) : EthernetFrame × Option GoError :=
  let e := zeroEthernetFrame
  match readArr 6 s with
  | .error er => (e, some er)
  | .ok (a, s) =>
  let e := { e with MACDestination := a }
  match readArr 6 s with
  | .error er => (e, some er)
  | .ok (a, s) =>
  let e := { e with MACSource := a }
  match readU16 networkByteOrder s with
  | .error er => (e, some er)
  | .ok (nextValue, s) =>
  let finish := fun (e : EthernetFrame) (nextValue : Nat) (s : Bytes) =>
    let e := if nextValue < 1536 then { e with Length := nextValue }
             else { e with EtherType := nextValue }
    let r := readInternetLayer e.EtherType s
    ({ e with data := some r.1 }, r.2)
  if nextValue = 33024 then
    if s.length = 0 then (e, some .ioEOF)
    else
      let taken := min 2 s.length
      let e := { e with VLANTag := [129, 0] ++ s.take 2 ++ List.replicate (2 - taken) 0 }
      match readU16 networkByteOrder (s.drop taken) with
      | .error er => (e, some er)
      | .ok (nv, s) => finish e nv s
  else finish e nextValue s

/-- The `LinkLayer` interface: one constructor per concrete
implementation. -/
inductive LinkLayer where
  | ethernet (e : EthernetFrame)
  | unknown (u : UnknownLink)

/-- `readLinkData`: link type 1 (ETHERNET) selects the Ethernet decoder,
every other link type decodes to `UnknownLink`.  The byte-order argument is
carried but, as in the source, unused by the concrete decoders, which all
read in network order. -/
def readLinkData (_order : ByteOrder) (linkType : Nat) (s : Bytes) :
    LinkLayer × Option GoError :=
  if linkType = 1 then
    let r := EthernetFrame.ReadFrom s
    (.ethernet r.1, r.2)
  else
    let r := UnknownLink.ReadFrom s
    (.unknown r.1, r.2)

/-! ## File level (api.go and the decode helpers) -/

/-- A single captured packet: timestamp (nanoseconds, as a
`time.Duration`), the two length fields from the per-frame header, and the
decoded link-layer payload (`none` while still the nil interface). -/
structure Packet where
  Timestamp : Nat
  IncludedLen : Nat
  ActualLen : Nat
  Data : Option LinkLayer

/-- A parsed .pcap file. -/
structure PcapFile where
  MajorVersion : Nat
  MinorVersion : Nat
  TZCorrection : Int
  SigFigs : Nat
  MaxLen : Nat
  LinkType : Nat
  Packets : List Packet

/-- The Go zero value of `Packet`. -/
def zeroPacket : Packet :=
  { Timestamp := 0, IncludedLen := 0, ActualLen := 0, Data := none }

/-- The Go zero value of `PcapFile`. -/
def zeroPcapFile : PcapFile :=
  { MajorVersion := 0, MinorVersion := 0, TZCorrection := 0, SigFigs := 0
    MaxLen := 0, LinkType := 0, Packets := [] }

/-- The pcap magic number. -/
def magic : Bytes := [161, 178, 195, 212]

/-- The byte-reversed pcap magic number. -/
def magicReverse : Bytes := [212, 195, 178, 161]

/-- `checkMagicNum`: reads up to 4 bytes with a single `Read` call; fewer
than 4 bytes is `InsufficientLength`, the magic constant selects big-endian
order, its reversal selects little-endian order, and any other 4 bytes are
`NotAPcapFile`. -/
def checkMagicNum (s : Bytes) : Except GoError (Bool × ByteOrder × Bytes) :=
  let buffer := s.take 4
  if buffer.length ≠ 4 then .error .InsufficientLength
  else if buffer = magic then .ok (true, .big, s.drop 4)
  else if buffer = magicReverse then .ok (true, .little, s.drop 4)
  else .error .NotAPcapFile

/-- `readFileHeader`: the six fixed fields of the 20-byte trace header,
read in the resolved byte order; `binary.Read` errors pass through
unchanged.  On an error the stream is drained of the partial field. -/
def readFileHeader (o : ByteOrder) (s : Bytes) :
    PcapFile × Option GoError × Bytes :=
  let f := zeroPcapFile
  match readU16 o s with
  | .error e => (f, some e, [])
  | .ok (v, s) =>
  let f := { f with MajorVersion := v }
  match readU16 o s with
  | .error e => (f, some e, [])
  | .ok (v, s) =>
  let f := { f with MinorVersion := v }
  match readI32 o s with
  | .error e => (f, some e, [])
  | .ok (v, s) =>
  let f := { f with TZCorrection := v }
  match readU32 o s with
  | .error e => (f, some e, [])
  | .ok (v, s) =>
  let f := { f with SigFigs := v }
  match readU32 o s with
  | .error e => (f, some e, [])
  | .ok (v, s) =>
  let f := { f with MaxLen := v }
  match readU32 o s with
  | .error e => (f, some e, [])
  | .ok (v, s) =>
  let f := { f with LinkType := v }
  (f, none, s)

/-- Modelled from the spec: `populateFileHeader` is not among the source
files (only its caller `Parse` and the `readFileHeader` method are).  Per
spec section 4.2, it reads the fixed trace header and a short read here
fails with `UnexpectedEOF`; it therefore delegates to `readFileHeader` and
maps the reader's short-read sentinels to `UnexpectedEOF`. -/
def populateFileHeader (o : ByteOrder) (s : Bytes) :
    PcapFile × Option GoError × Bytes :=
  let r := readFileHeader o s
  (r.1,
   r.2.1.map (fun e =>
     if e = GoError.ioEOF ∨ e = GoError.ioUnexpectedEOF then GoError.UnexpectedEOF
     else e),
   r.2.2)

/-- `Packet.readPacketHeader`: two timestamp words (seconds then
microseconds, combined into a `time.Duration`), then the included and
actual lengths.  `io.ErrUnexpectedEOF` is mapped to `InsufficientLength`;
a clean `io.EOF` from any whole field passes through unchanged. -/
def readPacketHeader (o : ByteOrder) (s : Bytes) :
    Packet × Option GoError × Bytes :=
  let pkt := zeroPacket
  match readU32 o s with
  | .error e =>
      (pkt, some (if e = .ioUnexpectedEOF then GoError.InsufficientLength else e), [])
  | .ok (tsSeconds, s) =>
  match readU32 o s with
  | .error e =>
      (pkt, some (if e = .ioUnexpectedEOF then GoError.InsufficientLength else e), [])
  | .ok (tsMicros, s) =>
  match readU32 o s with
  | .error e =>
      (pkt, some (if e = .ioUnexpectedEOF then GoError.InsufficientLength else e), [])
  | .ok (v, s) =>
  let pkt := { pkt with IncludedLen := v }
  match readU32 o s with
  | .error e =>
      (pkt, some (if e = .ioUnexpectedEOF then GoError.InsufficientLength else e), [])
  | .ok (v, s) =>
  let pkt := { pkt with ActualLen := v }
  let pkt := { pkt with Timestamp := tsSeconds * 1000000000 + tsMicros * 1000 }
  (pkt, none, s)

/-- `parsePacket` (the `Packet.ReadFrom` method at its `Parse` call site):
read the per-frame header, bound a sub-reader to exactly `IncludedLen`
bytes, decode the link layer from it, and drain whatever the link decoder
left unconsumed.  The link-layer value is assigned to the packet even when
its decode failed. -/
def parsePacket (o : ByteOrder) (linkType : Nat) (s : Bytes) :
    Packet × Option GoError × Bytes :=
  match readPacketHeader o s with
  | (pkt, some e, s1) => (pkt, some e, s1)
  | (pkt, none, s1) =>
    let frameData := s1.take pkt.IncludedLen
    let rest := s1.drop pkt.IncludedLen
    let r := readLinkData o linkType frameData
    ({ pkt with Data := some r.1 }, r.2, rest)

theorem readU32_ok {o : ByteOrder} {s : Bytes} {v : Nat} {r : Bytes}
    (h : readU32 o s = .ok (v, r)) : r = s.drop 4 ∧ 4 ≤ s.length := by
  rcases s with _ | ⟨b0, _ | ⟨b1, _ | ⟨b2, _ | ⟨b3, rest⟩⟩⟩⟩ <;>
    simp_all [readU32]

theorem readPacketHeader_ok {o : ByteOrder} {s : Bytes} {pkt : Packet}
    {rest : Bytes} (h : readPacketHeader o s = (pkt, none, rest)) :
    rest = s.drop 16 ∧ 16 ≤ s.length := by
  rcases s with _ | ⟨b0, _ | ⟨b1, _ | ⟨b2, _ | ⟨b3, _ | ⟨b4, _ | ⟨b5, _ | ⟨b6,
    _ | ⟨b7, _ | ⟨b8, _ | ⟨b9, _ | ⟨b10, _ | ⟨b11, _ | ⟨b12, _ | ⟨b13,
    _ | ⟨b14, _ | ⟨b15, r⟩⟩⟩⟩⟩⟩⟩⟩⟩⟩⟩⟩⟩⟩⟩⟩ <;>
    simp_all [readPacketHeader, readU32]

theorem parsePacket_ok_consumes {o : ByteOrder} {lt : Nat} {s : Bytes}
    {pkt : Packet} {rest : Bytes}
    (h : parsePacket o lt s = (pkt, none, rest)) : rest.length < s.length := by
  unfold parsePacket at h
  cases hph : readPacketHeader o s with
  | mk pkt1 w =>
    obtain ⟨err1, s1⟩ := w
    rw [hph] at h
    cases err1 with
    | some e => simp at h
    | none =>
      simp at h
      obtain ⟨hrest, hlen⟩ := readPacketHeader_ok hph
      rw [← h.2.2]
      simp [List.length_drop, hrest]
      omega

/-- The frame loop of `Parse`: call `parsePacket`, append the resulting
packet to the list unconditionally, and stop at the first error, which is
returned as the loop's final error value. -/
def parseLoop (o : ByteOrder) (lt : Nat) (s : Bytes) :
    List Packet × Option GoError :=
  match hp : parsePacket o lt s with
  | (pkt, some e, _) => ([pkt], some e)
  | (pkt, none, s1) =>
    let r := parseLoop o lt s1
    (pkt :: r.1, r.2)
termination_by s.length
decreasing_by exact parsePacket_ok_consumes hp

/-- `Parse` (api.go): magic-number detection, file header, then the frame
loop; a final error equal to `io.EOF` is converted to no error. -/
def Parse (s : Bytes) : PcapFile × Option GoError :=
  match checkMagicNum s with
  | .error e => (zeroPcapFile, some e)
  | .ok (_, order, s1) =>
    match populateFileHeader order s1 with
    | (file, some e, _) => (file, some e)
    | (file, none, s2) =>
      let r := parseLoop order file.LinkType s2
      ({ file with Packets := r.1 }, if r.2 = some .ioEOF then none else r.2)

/-! Specification-side descriptions of the frame loop, used to state the
partial-result guarantee: the packets of the frames that decode without
error before the first failure, the packet produced by the failing
iteration, and that first error. -/

/-- The packets of the maximal prefix of frames that decode without
error. -/
def goodFrames (o : ByteOrder) (lt : Nat) (s : Bytes) : List Packet :=
  match hp : parsePacket o lt s with
  | (_, some _, _) => []
  | (pkt, none, s1) => pkt :: goodFrames o lt s1
termination_by s.length
decreasing_by exact parsePacket_ok_consumes hp

/-- The packet produced by the first failing `parsePacket` call. -/
def failedPacket (o : ByteOrder) (lt : Nat) (s : Bytes) : Packet :=
  match hp : parsePacket o lt s with
  | (pkt, some _, _) => pkt
  | (_, none, s1) => failedPacket o lt s1
termination_by s.length
decreasing_by exact parsePacket_ok_consumes hp

/-- The error of the first failing `parsePacket` call. -/
def firstLoopError (o : ByteOrder) (lt : Nat) (s : Bytes) : GoError :=
  match hp : parsePacket o lt s with
  | (_, some e, _) => e
  | (_, none, s1) => firstLoopError o lt s1
termination_by s.length
decreasing_by exact parsePacket_ok_consumes hp

/-! ## Characterisation of the frame loop -/

theorem parseLoop_stop {o : ByteOrder} {lt : Nat} {s : Bytes} {pkt : Packet}
    {e : GoError} {r : Bytes} (hp : parsePacket o lt s = (pkt, some e, r)) :
    parseLoop o lt s = ([pkt], some e) := by
  rw [parseLoop]
  split
  next pkt1 e1 r1 hp1 => rw [hp] at hp1; cases hp1; rfl
  next pkt1 s1 hp1 => rw [hp] at hp1; cases hp1

theorem parseLoop_step {o : ByteOrder} {lt : Nat} {s : Bytes} {pkt : Packet}
    {s1 : Bytes} (hp : parsePacket o lt s = (pkt, none, s1)) :
    parseLoop o lt s = (pkt :: (parseLoop o lt s1).1, (parseLoop o lt s1).2) := by
  rw [parseLoop]
  split
  next pkt1 e1 r1 hp1 => rw [hp] at hp1; cases hp1
  next pkt1 t1 hp1 => rw [hp] at hp1; cases hp1; rfl

theorem goodFrames_stop {o : ByteOrder} {lt : Nat} {s : Bytes} {pkt : Packet}
    {e : GoError} {r : Bytes} (hp : parsePacket o lt s = (pkt, some e, r)) :
    goodFrames o lt s = [] := by
  rw [goodFrames]
  split
  next => rfl
  next pkt1 s1 hp1 => rw [hp] at hp1; cases hp1

theorem goodFrames_step {o : ByteOrder} {lt : Nat} {s : Bytes} {pkt : Packet}
    {s1 : Bytes} (hp : parsePacket o lt s = (pkt, none, s1)) :
    goodFrames o lt s = pkt :: goodFrames o lt s1 := by
  rw [goodFrames]
  split
  next pkt1 e1 r1 hp1 => rw [hp] at hp1; cases hp1
  next pkt1 t1 hp1 => rw [hp] at hp1; cases hp1; rfl

theorem failedPacket_stop {o : ByteOrder} {lt : Nat} {s : Bytes} {pkt : Packet}
    {e : GoError} {r : Bytes} (hp : parsePacket o lt s = (pkt, some e, r)) :
    failedPacket o lt s = pkt := by
  rw [failedPacket]
  split
  next pkt1 e1 r1 hp1 => rw [hp] at hp1; cases hp1; rfl
  next pkt1 s1 hp1 => rw [hp] at hp1; cases hp1

theorem failedPacket_step {o : ByteOrder} {lt : Nat} {s : Bytes} {pkt : Packet}
    {s1 : Bytes} (hp : parsePacket o lt s = (pkt, none, s1)) :
    failedPacket o lt s = failedPacket o lt s1 := by
  rw [failedPacket]
  split
  next pkt1 e1 r1 hp1 => rw [hp] at hp1; cases hp1
  next pkt1 t1 hp1 => rw [hp] at hp1; cases hp1; rfl

theorem firstLoopError_stop {o : ByteOrder} {lt : Nat} {s : Bytes} {pkt : Packet}
    {e : GoError} {r : Bytes} (hp : parsePacket o lt s = (pkt, some e, r)) :
    firstLoopError o lt s = e := by
  rw [firstLoopError]
  split
  next pkt1 e1 r1 hp1 => rw [hp] at hp1; cases hp1; rfl
  next pkt1 s1 hp1 => rw [hp] at hp1; cases hp1

theorem firstLoopError_step {o : ByteOrder} {lt : Nat} {s : Bytes} {pkt : Packet}
    {s1 : Bytes} (hp : parsePacket o lt s = (pkt, none, s1)) :
    firstLoopError o lt s = firstLoopError o lt s1 := by
  rw [firstLoopError]
  split
  next pkt1 e1 r1 hp1 => rw [hp] at hp1; cases hp1
  next pkt1 t1 hp1 => rw [hp] at hp1; cases hp1; rfl

theorem parseLoop_spec (o : ByteOrder) (lt : Nat) (s : Bytes) :
    parseLoop o lt s =
      (goodFrames o lt s ++ [failedPacket o lt s],
       some (firstLoopError o lt s)) := by
  have main : ∀ (n : Nat) (t : Bytes), t.length < n →
      parseLoop o lt t =
        (goodFrames o lt t ++ [failedPacket o lt t],
         some (firstLoopError o lt t)) := by
    intro n
    induction n with
    | zero => intro t ht; omega
    | succ n ih =>
      intro t ht
      rcases hp : parsePacket o lt t with ⟨pkt, w, r⟩
      cases w with
      | some e =>
        rw [parseLoop_stop hp, goodFrames_stop hp, failedPacket_stop hp,
          firstLoopError_stop hp]
        rfl
      | none =>
        have hlt := parsePacket_ok_consumes hp
        rw [parseLoop_step hp, goodFrames_step hp, failedPacket_step hp,
          firstLoopError_step hp, ih r (by omega)]
        rfl
  exact main (s.length + 1) s (by omega)

theorem Parse_eq {s : Bytes} {b : Bool} {o : ByteOrder} {s1 : Bytes}
    {file : PcapFile} {s2 : Bytes}
    (hm : checkMagicNum s = .ok (b, o, s1))
    (hf : populateFileHeader o s1 = (file, none, s2)) :
    Parse s = ({ file with Packets := (parseLoop o file.LinkType s2).1 },
               if (parseLoop o file.LinkType s2).2 = some .ioEOF then none
               else (parseLoop o file.LinkType s2).2) := by
  simp only [Parse, hm, hf]

/-! ## Unfolding lemmas for the chunk and parameter loops -/

theorem parseSCTPChunks_nil : parseSCTPChunks [] = .ok [] := by
  rw [parseSCTPChunks]
  rfl

theorem parseSCTPChunks_short {data : Bytes} {header : SCTPChunkHeader}
    (h0 : data.length ≠ 0)
    (hh : SCTPChunkHeader.FromBytes data = .ok header)
    (hlt : data.length < (header.Length + (4 - header.Length % 4) % 4) % 65536) :
    parseSCTPChunks data = .error .InsufficientLength := by
  rw [parseSCTPChunks, if_neg h0, hh]
  simp only [if_pos hlt]

theorem parseSCTPChunks_cons {data : Bytes} {header : SCTPChunkHeader}
    (h0 : data.length ≠ 0)
    (hh : SCTPChunkHeader.FromBytes data = .ok header)
    (hge : ¬ data.length < (header.Length + (4 - header.Length % 4) % 4) % 65536) :
    parseSCTPChunks data =
      (match parseSCTPChunk header
          (data.take ((header.Length + (4 - header.Length % 4) % 4) % 65536)) with
       | .error e => .error e
       | .ok chunk =>
         match parseSCTPChunks
             (data.drop ((header.Length + (4 - header.Length % 4) % 4) % 65536)) with
         | .error e => .error e
         | .ok chunks => .ok (chunk :: chunks)) := by
  rw [parseSCTPChunks, if_neg h0, hh]
  simp only [if_neg hge]
  split
  next e heq => rw [heq]
  next c heq => rw [heq]

theorem parseSCTPChunkParametersInit_nil :
    parseSCTPChunkParametersInit [] = .ok [] := by
  rw [parseSCTPChunkParametersInit]
  rfl

theorem parseSCTPChunkParametersInit_short {data : Bytes}
    {header : SCTPChunkParameterHeader}
    (h0 : data.length ≠ 0)
    (hh : SCTPChunkParameterHeader.FromBytes data = .ok header)
    (hlt : data.length < header.Length) :
    parseSCTPChunkParametersInit data = .error .InsufficientLength := by
  rw [parseSCTPChunkParametersInit, if_neg h0, hh]
  simp only [if_pos hlt]

theorem parseSCTPChunkParametersInit_cons {data : Bytes}
    {header : SCTPChunkParameterHeader}
    (h0 : data.length ≠ 0)
    (hh : SCTPChunkParameterHeader.FromBytes data = .ok header)
    (hge : ¬ data.length < header.Length) :
    parseSCTPChunkParametersInit data =
      (match parseSCTPInitChunkParameter header (data.take header.Length) with
       | .error e => .error e
       | .ok p =>
         match parseSCTPChunkParametersInit (data.drop header.Length) with
         | .error e => .error e
         | .ok ps => .ok (p :: ps)) := by
  rw [parseSCTPChunkParametersInit, if_neg h0, hh]
  simp only [if_neg hge]
  split
  next e heq => rw [heq]
  next p heq => rw [heq]

theorem goSlice_no_incorrect {d : Bytes} {lo hi : Nat} :
    goSlice d lo hi ≠ .error .IncorrectPacket := by
  unfold goSlice
  split <;> simp

theorem paramHeader_no_incorrect {d : Bytes} :
    SCTPChunkParameterHeader.FromBytes d ≠ .error .IncorrectPacket := by
  unfold SCTPChunkParameterHeader.FromBytes
  split <;> simp

theorem paramUnknown_no_incorrect {d : Bytes} :
    SCTPChunkParameterUnknown.FromBytes d ≠ .error .IncorrectPacket := by
  unfold SCTPChunkParameterUnknown.FromBytes
  split
  next e heq =>
    intro hcon
    injection hcon with he
    subst he
    exact goSlice_no_incorrect heq
  next hdrBytes heq =>
    split
    next e heq2 =>
      intro hcon
      injection hcon with he
      subst he
      exact paramHeader_no_incorrect heq2
    next h heq2 => simp

theorem paramHeader_take4 {d : Bytes} {L : Nat} (hd : 4 ≤ d.length) (hL : 4 ≤ L) :
    SCTPChunkParameterHeader.FromBytes ((d.take L).take 4) =
      SCTPChunkParameterHeader.FromBytes d := by
  have ht4 : (d.take L).take 4 = d.take 4 := by
    rw [List.take_take]
    congr 1
    omega
  have h2a : (d.take 4).take 2 = d.take 2 := by
    simp [List.take_take]
  have h2b : ((d.take 4).drop 2).take 2 = (d.drop 2).take 2 := by
    simp [List.drop_take, List.take_take]
  rw [ht4]
  unfold SCTPChunkParameterHeader.FromBytes
  rw [if_neg (by simp only [List.length_take]; omega), if_neg (by omega), h2a, h2b]

/-- Dispatching an INIT-chunk parameter whose header was parsed from the
same bytes never yields `IncorrectPacket`: the concrete parameter decoders
re-parse the same type tag the dispatcher matched on, so their tag checks
always pass, and their remaining failure modes are `InsufficientLength` and
slice panics. -/
theorem parseSCTPInitChunkParameter_from_header_no_incorrect {d : Bytes}
    {header : SCTPChunkParameterHeader}
    (hh : SCTPChunkParameterHeader.FromBytes d = .ok header) :
    parseSCTPInitChunkParameter header (d.take header.Length) ≠
      .error .IncorrectPacket := by
  unfold parseSCTPInitChunkParameter
  split
  next h5 =>
    unfold SCTPChunkParameterIPv4Sender.FromBytes
    by_cases hlen : (d.take header.Length).length < 8
    · rw [if_pos hlen]
      simp
    · rw [if_neg hlen]
      simp only [List.length_take] at hlen
      rw [paramHeader_take4 (by omega) (by omega), hh]
      simp [h5]
  split
  next h6 =>
    unfold SCTPChunkParameterIPv6Sender.FromBytes
    by_cases hlen : (d.take header.Length).length < 20
    · rw [if_pos hlen]
      simp
    · rw [if_neg hlen]
      simp only [List.length_take] at hlen
      rw [paramHeader_take4 (by omega) (by omega), hh]
      simp [h6]
  split
  next h9 =>
    unfold SCTPChunkParameterCookieLifespanInc.FromBytes
    by_cases hlen : (d.take header.Length).length < 8
    · rw [if_pos hlen]
      simp
    · rw [if_neg hlen]
      simp only [List.length_take] at hlen
      rw [paramHeader_take4 (by omega) (by omega), hh]
      simp [h9]
  · split
    next e heq =>
      intro hcon
      injection hcon with he
      subst he
      exact paramUnknown_no_incorrect heq
    next p heq => simp

/-- The INIT / INIT ACK parameter loop can fail with `InsufficientLength`
or a slice panic but never with `IncorrectPacket`. -/
theorem parseSCTPChunkParametersInit_no_incorrect (d : Bytes) :
    parseSCTPChunkParametersInit d ≠ .error .IncorrectPacket := by
  have main : ∀ (n : Nat) (t : Bytes), t.length < n →
      parseSCTPChunkParametersInit t ≠ .error .IncorrectPacket := by
    intro n
    induction n with
    | zero => intro t h; exact absurd h (Nat.not_lt_zero _)
    | succ n ih =>
      intro t ht
      rw [parseSCTPChunkParametersInit]
      split
      · simp
      next h0 =>
        split
        next e heq =>
          intro hcon
          injection hcon with he
          subst he
          exact paramHeader_no_incorrect heq
        next header heq =>
          split
          · simp
          next hge =>
            split
            next e hp =>
              intro hcon
              injection hcon with he
              subst he
              exact parseSCTPInitChunkParameter_from_header_no_incorrect heq hp
            next p hp =>
              split
              next e hrec =>
                intro hcon
                injection hcon with he
                subst he
                have h4 := parseSCTPInitChunkParameter_ok_length hp
                refine ih (t.drop header.Length) ?_ hrec
                simp only [List.length_take] at h4
                simp only [List.length_drop]
                omega
              next ps hrec => simp
  exact main (d.length + 1) d (by omega)

/-! ## Claims -/

theorem readU8_of_le {s : Bytes} (h : 1 ≤ s.length) :
    readU8 s = .ok (s.getD 0 0 % 256, s.drop 1) := by
  cases s with
  | nil => simp at h
  | cons b t => simp [readU8]

theorem readU16_of_le {o : ByteOrder} {s : Bytes} (h : 2 ≤ s.length) :
    readU16 o s = .ok (u16val o (s.getD 0 0) (s.getD 1 0), s.drop 2) := by
  rcases s with _ | ⟨b0, _ | ⟨b1, t⟩⟩ <;> simp_all [readU16]

theorem readU32_of_le {o : ByteOrder} {s : Bytes} (h : 4 ≤ s.length) :
    readU32 o s =
      .ok (u32val o (s.getD 0 0) (s.getD 1 0) (s.getD 2 0) (s.getD 3 0), s.drop 4) := by
  rcases s with _ | ⟨b0, _ | ⟨b1, _ | ⟨b2, _ | ⟨b3, t⟩⟩⟩⟩ <;> simp_all [readU32]

theorem readArr_of_le {n : Nat} {s : Bytes} (hn : 1 ≤ n) (h : n ≤ s.length) :
    readArr n s = .ok (s.take n, s.drop n) := by
  unfold readArr
  rw [if_neg (by omega), if_neg (by omega)]

/-- C7: the magic-number check accepts exactly the magic constant
(big-endian) and its byte reversal (little-endian), fails with
InsufficientLength when fewer than 4 bytes are available, and fails with
NotAPcapFile on any other 4 bytes. -/
theorem confirmed_C7 (s1 s2 s3 s4 : Bytes)
    (h1 : s1.length < 4)
    (h2 : s2.take 4 = magic)
    (h3 : s3.take 4 = magicReverse)
    (h4 : 4 ≤ s4.length) (h5 : s4.take 4 ≠ magic) (h6 : s4.take 4 ≠ magicReverse) :
    checkMagicNum s1 = .error .InsufficientLength ∧
    checkMagicNum s2 = .ok (true, .big, s2.drop 4) ∧
    checkMagicNum s3 = .ok (true, .little, s3.drop 4) ∧
    checkMagicNum s4 = .error .NotAPcapFile := by
  refine ⟨?_, ?_, ?_, ?_⟩
  · have hl : (s1.take 4).length ≠ 4 := by
      simp only [List.length_take]
      omega
    simp [checkMagicNum, hl]
    intro hx
    exact absurd hx (by omega)
  · have hl : (s2.take 4).length = 4 := by rw [h2]; rfl
    simp [checkMagicNum, hl, h2, magic]
  · have hl : (s3.take 4).length = 4 := by rw [h3]; rfl
    simp [checkMagicNum, hl, h3, magic, magicReverse]
  · have hl : (s4.take 4).length = 4 := by
      simp only [List.length_take]
      omega
    simp [checkMagicNum, hl, h5, h6]

theorem confirmed_C7_witness :
    checkMagicNum [161, 178, 195] = .error .InsufficientLength ∧
    checkMagicNum [161, 178, 195, 212, 7] = .ok (true, .big, [7]) ∧
    checkMagicNum [212, 195, 178, 161] = .ok (true, .little, []) ∧
    checkMagicNum [0, 0, 0, 0] = .error .NotAPcapFile := by
  have h := confirmed_C7 [161, 178, 195] [161, 178, 195, 212, 7]
    [212, 195, 178, 161] [0, 0, 0, 0]
    (by decide) (by decide) (by decide) (by decide) (by decide) (by decide)
  simpa using h

/-- C8 as stated is false: on success the stored payload is all bytes after
the 8-byte header, not the declared length minus 8, and no InsufficientLength
is raised when fewer payload bytes than the declared length are available.
Here the declared length is 100 but only 2 payload bytes exist, and the
decode succeeds with a 2-byte payload. -/
theorem corrected_C8_cex :
    UDPDatagram.FromBytes [8, 80, 0, 53, 0, 100, 0, 0, 1, 2] =
      .ok { SourcePort := 2128, DestinationPort := 53, Length := 100,
            Checksum := 0, data := [1, 2] } ∧
    ([1, 2] : Bytes).length ≠ 100 - 8 := by
  constructor
  · rfl
  · decide

/-- C8 amended: inputs shorter than 8 bytes fail with InsufficientLength;
on success the fields are the four 16-bit header values and the stored
payload is all bytes after the 8-byte header, regardless of the declared
length field (which is stored but never validated). -/
theorem corrected_C8 (short long : Bytes)
    (hs : short.length < 8) (hl : 8 ≤ long.length) :
    UDPDatagram.FromBytes short = .error .InsufficientLength ∧
    UDPDatagram.FromBytes long =
      .ok { SourcePort := getUint16 (long.take 2) false
            DestinationPort := getUint16 ((long.drop 2).take 2) false
            Length := getUint16 ((long.drop 4).take 2) false
            Checksum := getUint16 ((long.drop 6).take 2) false
            data := long.drop 8 } := by
  constructor
  · simp [UDPDatagram.FromBytes, hs]
  · simp [UDPDatagram.FromBytes, Nat.not_lt.mpr hl]

theorem corrected_C8_witness :
    UDPDatagram.FromBytes [1, 2, 3] = .error .InsufficientLength ∧
    UDPDatagram.FromBytes [8, 80, 0, 53, 0, 50, 131, 151, 9] =
      .ok { SourcePort := 2128, DestinationPort := 53, Length := 50,
            Checksum := 33687, data := [9] } := by
  have h := corrected_C8 [1, 2, 3] [8, 80, 0, 53, 0, 50, 131, 151, 9]
    (by decide) (by decide)
  simpa using h

/-- C9: the claim is right and the code is wrong.  A SACK chunk with one
gap-ACK block and enough bytes makes the decoder allocate a one-element
slice but iterate twice (the loop bound is NumGapACKBlocks*2 while the
slice has NumGapACKBlocks elements), so the second store indexes out of
range -- a Go runtime panic, not a successful decode. -/
theorem code_bug_C9 :
    16 + 4 * 1 + 4 * 0 ≤
      ([3, 0, 0, 20, 0, 0, 0, 5, 0, 0, 0, 6, 0, 1, 0, 0, 0, 7, 0, 9] : Bytes).length ∧
    SCTPChunkSack.FromBytes
      [3, 0, 0, 20, 0, 0, 0, 5, 0, 0, 0, 6, 0, 1, 0, 0, 0, 7, 0, 9] =
      .error .indexOutOfRange := by
  constructor
  · decide
  · rfl

/-- C6: the claim is right about DSCP, ECN and the two flag bits, but the
fragment-offset computation is wrong in the code: the expression
`(flagsFragment[0] & 0x1F) << 8` shifts a `uint8`, so the five high bits
are discarded before the widening to `uint16`, and the stored offset is
just the eighth header byte.  On this packet the flags/offset bytes are
0x41 0x02: the claim's value is (0x41 AND 0x1F)*256 + 2 = 258, the code
stores 2. -/
theorem code_bug_C6 :
    IPv4Packet.ReadFrom
      [0x45, 0xA7, 0, 20, 0, 1, 0x41, 0x02, 64, 99, 0, 0, 1, 2, 3, 4, 5, 6, 7, 8] =
      ({ IHL := 5, DSCP := 41, ECN := 3, TotalLength := 20, ID := 1,
         DontFragment := true, MoreFragments := false, FragmentOffset := 2,
         TTL := 64, Protocol := 99, Checksum := 0, SourceAddress := [1, 2, 3, 4],
         DestAddress := [5, 6, 7, 8], Options := [],
         data := some (.unknown { data := [] }) }, none) ∧
    (0x41 &&& 0x1F) * 256 + 0x02 = 258 ∧
    (2 : Nat) ≠ 258 := by
  refine ⟨rfl, by decide, by decide⟩



/-- C10: when the decoded TCP data offset is below 5, the option length is
`(HeaderSize - 5) * 4` in unsigned 8-bit arithmetic (236 when the offset is
0); with fewer remaining bytes than that the decode fails with
InsufficientLength, and with enough bytes it succeeds, storing that many
option bytes -- the invalid data offset is never rejected with a distinct
error. -/
theorem confirmed_C10 (data : Bytes) (h20 : 20 ≤ data.length)
    (hhs : (data.getD 12 0 % 256) >>> 4 < 5) :
    (data.length - 20 < ((((data.getD 12 0 % 256) >>> 4 + 256 - 5) % 256) * 4) % 256 →
      TCPSegment.FromBytes data = .error .InsufficientLength) ∧
    (((((data.getD 12 0 % 256) >>> 4 + 256 - 5) % 256) * 4) % 256 ≤ data.length - 20 →
      TCPSegment.FromBytes data =
        .ok { SourcePort := getUint16 (data.take 2) false
              DestinationPort := getUint16 ((data.drop 2).take 2) false
              SequenceNumber := getUint32 ((data.drop 4).take 4) false
              AckNumber := getUint32 ((data.drop 8).take 4) false
              HeaderSize := (data.getD 12 0 % 256) >>> 4
              NS := data.getD 12 0 % 256 &&& 1 != 0
              CWR := data.getD 13 0 % 256 &&& 128 != 0
              ECE := data.getD 13 0 % 256 &&& 64 != 0
              URG := data.getD 13 0 % 256 &&& 32 != 0
              ACK := data.getD 13 0 % 256 &&& 16 != 0
              PSH := data.getD 13 0 % 256 &&& 8 != 0
              RST := data.getD 13 0 % 256 &&& 4 != 0
              SYN := data.getD 13 0 % 256 &&& 2 != 0
              FIN := data.getD 13 0 % 256 &&& 1 != 0
              WindowSize := getUint16 ((data.drop 14).take 2) false
              Checksum := getUint16 ((data.drop 16).take 2) false
              UrgentOffset := getUint16 ((data.drop 18).take 2) false
              OptionData := (data.drop 20).take
                (((((data.getD 12 0 % 256) >>> 4 + 256 - 5) % 256) * 4) % 256)
              data := (data.drop 20).drop
                (((((data.getD 12 0 % 256) >>> 4 + 256 - 5) % 256) * 4) % 256) }) ∧
    (((0 + 256 - 5) % 256) * 4) % 256 = 236 := by
  have hnl : ¬ data.length < 20 := by omega
  refine ⟨?_, ?_, by decide⟩
  · intro hlt
    simp only [TCPSegment.FromBytes, if_neg hnl]
    rw [if_pos (by simp only [List.length_drop]; omega)]
  · intro hge
    simp only [TCPSegment.FromBytes, if_neg hnl]
    rw [if_neg (by simp only [List.length_drop]; omega)]

theorem confirmed_C10_witness :
    20 ≤ ([0, 80, 0, 53, 0, 0, 0, 1, 0, 0, 0, 2, 0x10, 0x10, 0, 99, 0, 7, 0, 0] : Bytes).length ∧
    (([0, 80, 0, 53, 0, 0, 0, 1, 0, 0, 0, 2, 0x10, 0x10, 0, 99, 0, 7, 0, 0] : Bytes).getD 12 0 % 256) >>> 4 < 5 ∧
    TCPSegment.FromBytes [0, 80, 0, 53, 0, 0, 0, 1, 0, 0, 0, 2, 0x10, 0x10, 0, 99, 0, 7, 0, 0] =
      .error .InsufficientLength := by
  refine ⟨by decide, by decide, ?_⟩
  have h := confirmed_C10
    [0, 80, 0, 53, 0, 0, 0, 1, 0, 0, 0, 2, 0x10, 0x10, 0, 99, 0, 7, 0, 0]
    (by decide) (by decide)
  exact h.1 (by decide)



/-- C5 as stated is false for the INIT-ACK and HEARTBEAT-ACK variants: their
`FromBytes` is the method promoted from the embedded chunk header, which
performs no tag check.  A chunk whose declared type is 9 (neither 2 nor 5)
is accepted by both decoders, which only populate the header. -/
theorem corrected_C5_cex :
    SCTPChunkInitAck.FromBytes [9, 0, 0, 8, 0, 0, 0, 0] =
      .ok { header := { «Type» := 9, Flags := 0, Length := 8 }
            InitiateTag := 0, AdvertisedReceiverWindowCredit := 0
            NumOutboundStreams := 0, NumInboundStreams := 0
            InitialTSN := 0, Parameters := [] } ∧
    SCTPChunkHeartbeatAck.FromBytes [9, 0, 0, 8, 0, 0, 0, 0] =
      .ok { header := { «Type» := 9, Flags := 0, Length := 8 }
            Parameter := zeroHeartbeatInfo } := by
  exact ⟨rfl, rfl⟩

/-- C5 amended: each concrete variant decoder re-validates its own tag,
given enough bytes to reach the check.  The IPv4 decoder fails with
IncorrectPacket on any version nibble other than 4 and the IPv6 decoder on
any nibble other than 6.  Each directly-defined SCTP chunk decoder fails
with IncorrectPacket on any chunk type outside the set it owns: DATA owns
0, INIT owns 1 and 2, SACK 3, HEARTBEAT 4 and 5, ABORT 6, SHUTDOWN 7,
SHUTDOWN-ACK 8, ERROR 9, COOKIE-ECHO 10, COOKIE-ACK 11, SHUTDOWN-COMPLETE
14.  On its owned tags 1 and 2 the INIT decoder never reports
IncorrectPacket, and on its owned tags 4 and 5 the HEARTBEAT decoder
proceeds past its tag check into the heartbeat-info parameter decode.  The
exception is the INIT-ACK and HEARTBEAT-ACK variants: their `FromBytes` is
the method promoted from the embedded chunk header, which performs no tag
check, so they accept a chunk of any type. -/
theorem corrected_C5 (dnet dchunk : Bytes) (hdr : SCTPChunkHeader)
    (hn : 40 ≤ dnet.length)
    (hc : 20 ≤ dchunk.length)
    (hh : SCTPChunkHeader.FromBytes (dchunk.take 4) = .ok hdr) :
    (((dnet.getD 0 0 % 256) &&& 0xF0) >>> 4 ≠ 4 →
      (IPv4Packet.ReadFrom dnet).2 = some .IncorrectPacket) ∧
    (((dnet.getD 0 0 % 256) &&& 0xF0) >>> 4 ≠ 6 →
      (IPv6Packet.ReadFrom dnet).2 = some .IncorrectPacket) ∧
    (hdr.Type ≠ 0 → SCTPChunkData.FromBytes dchunk = .error .IncorrectPacket) ∧
    (hdr.Type ≠ 1 ∧ hdr.Type ≠ 2 →
      SCTPChunkInit.FromBytes dchunk = .error .IncorrectPacket) ∧
    (hdr.Type ≠ 3 → SCTPChunkSack.FromBytes dchunk = .error .IncorrectPacket) ∧
    (hdr.Type ≠ 4 ∧ hdr.Type ≠ 5 →
      SCTPChunkHeartbeat.FromBytes dchunk = .error .IncorrectPacket) ∧
    (hdr.Type ≠ 6 → SCTPChunkAbort.FromBytes dchunk = .error .IncorrectPacket) ∧
    (hdr.Type ≠ 7 → SCTPChunkShutdown.FromBytes dchunk = .error .IncorrectPacket) ∧
    (hdr.Type ≠ 8 → SCTPChunkShutdownAck.FromBytes dchunk = .error .IncorrectPacket) ∧
    (hdr.Type ≠ 9 → SCTPChunkError.FromBytes dchunk = .error .IncorrectPacket) ∧
    (hdr.Type ≠ 10 → SCTPChunkCookieEcho.FromBytes dchunk = .error .IncorrectPacket) ∧
    (hdr.Type ≠ 11 → SCTPChunkCookieAck.FromBytes dchunk = .error .IncorrectPacket) ∧
    (hdr.Type ≠ 14 →
      SCTPChunkShutdownComplete.FromBytes dchunk = .error .IncorrectPacket) ∧
    (hdr.Type = 1 ∨ hdr.Type = 2 →
      SCTPChunkInit.FromBytes dchunk ≠ .error .IncorrectPacket) ∧
    (hdr.Type = 4 ∨ hdr.Type = 5 →
      SCTPChunkHeartbeat.FromBytes dchunk =
        match goSlice dchunk 4 hdr.Length with
        | .error e => .error e
        | .ok body =>
          match SCTPChunkParameterHeartbeatInfo.FromBytes body with
          | .error e => .error e
          | .ok p => .ok { header := hdr, Parameter := p }) ∧
    (∃ c, SCTPChunkInitAck.FromBytes dchunk = .ok c) ∧
    (∃ c, SCTPChunkHeartbeatAck.FromBytes dchunk = .ok c) := by
  have hhdr : SCTPChunkHeader.FromBytes dchunk =
      .ok { «Type» := dchunk.getD 0 0 % 256, Flags := dchunk.getD 1 0 % 256
            Length := getUint16 ((dchunk.drop 2).take 2) false } := by
    rw [SCTPChunkHeader.FromBytes, if_neg (by omega)]
  refine ⟨?_, ?_, ?_, ?_, ?_, ?_, ?_, ?_, ?_, ?_, ?_, ?_, ?_, ?_, ?_, ?_, ?_⟩
  · intro hv4
    simp (disch := (try simp only [List.length_tail, List.length_drop]); omega) only
      [IPv4Packet.ReadFrom, readU8_of_le, readU16_of_le, readArr_of_le]
    simp only [List.getD_eq_getElem?_getD] at hv4
    simp [hv4]
  · intro hv6
    simp (disch := (try simp only [List.length_tail, List.length_drop]); omega) only
      [IPv6Packet.ReadFrom, readU8_of_le, readU16_of_le, readArr_of_le]
    simp only [List.getD_eq_getElem?_getD] at hv6
    simp [List.getElem?_take, hv6]
  · intro ht0
    rw [SCTPChunkData.FromBytes, if_neg (by omega), hh]
    simp [ht0]
  · intro ht
    rw [SCTPChunkInit.FromBytes, if_neg (by omega), hh]
    simp [ht.1, ht.2]
  · intro ht3
    rw [SCTPChunkSack.FromBytes, if_neg (by omega), hh]
    simp [ht3]
  · intro ht
    rw [SCTPChunkHeartbeat.FromBytes, if_neg (by omega), hh]
    simp [ht.1, ht.2]
  · intro ht6
    rw [SCTPChunkAbort.FromBytes, if_neg (by omega), hh]
    simp [ht6]
  · intro ht7
    rw [SCTPChunkShutdown.FromBytes, if_neg (by omega), hh]
    simp [ht7]
  · intro ht8
    rw [SCTPChunkShutdownAck.FromBytes, if_neg (by omega), hh]
    simp [ht8]
  · intro ht9
    rw [SCTPChunkError.FromBytes, if_neg (by omega), hh]
    simp [ht9]
  · intro ht10
    rw [SCTPChunkCookieEcho.FromBytes, if_neg (by omega), hh]
    simp [ht10]
  · intro ht11
    rw [SCTPChunkCookieAck.FromBytes, if_neg (by omega), hh]
    simp [ht11]
  · intro ht14
    rw [SCTPChunkShutdownComplete.FromBytes, if_neg (by omega), hh]
    simp [ht14]
  · intro h12
    rw [SCTPChunkInit.FromBytes, if_neg (by omega)]
    split
    next e heq =>
      rw [hh] at heq
      exact Except.noConfusion heq
    next h heq =>
      rw [hh] at heq
      injection heq with hhd
      subst hhd
      rw [if_neg (by rcases h12 with h | h <;> simp [h])]
      split
      next e hg =>
        intro hcon
        injection hcon with he
        subst he
        exact goSlice_no_incorrect hg
      next body hg =>
        split
        next e hps =>
          intro hcon
          injection hcon with he
          subst he
          exact parseSCTPChunkParametersInit_no_incorrect body hps
        next ps hps => simp
  · intro h45
    rw [SCTPChunkHeartbeat.FromBytes, if_neg (by omega)]
    split
    next e heq =>
      rw [hh] at heq
      exact Except.noConfusion heq
    next h heq =>
      rw [hh] at heq
      injection heq with hhd
      subst hhd
      rw [if_neg (by rcases h45 with h | h <;> simp [h])]
  · exact ⟨_, by rw [SCTPChunkInitAck.FromBytes, hhdr]⟩
  · exact ⟨_, by rw [SCTPChunkHeartbeatAck.FromBytes, hhdr]⟩



theorem corrected_C5_witness :
    (IPv4Packet.ReadFrom (98 :: List.replicate 39 0)).2 = some .IncorrectPacket ∧
    (IPv6Packet.ReadFrom (69 :: List.replicate 39 0)).2 = some .IncorrectPacket ∧
    SCTPChunkData.FromBytes ([1, 0, 0, 20] ++ List.replicate 16 0) =
      .error .IncorrectPacket ∧
    SCTPChunkSack.FromBytes ([4, 0, 0, 8, 0, 1, 0, 0] ++ List.replicate 12 0) =
      .error .IncorrectPacket ∧
    SCTPChunkInit.FromBytes ([1, 0, 0, 20] ++ List.replicate 16 0) ≠
      .error .IncorrectPacket ∧
    SCTPChunkHeartbeat.FromBytes ([4, 0, 0, 8, 0, 1, 0, 0] ++ List.replicate 12 0) =
      .ok { header := { «Type» := 4, Flags := 0, Length := 8 }
            Parameter := { header := { «Type» := 1, Length := 0 }, Info := [] } } ∧
    (∃ c, SCTPChunkInitAck.FromBytes ([1, 0, 0, 20] ++ List.replicate 16 0) = .ok c) ∧
    (∃ c, SCTPChunkHeartbeatAck.FromBytes ([4, 0, 0, 8, 0, 1, 0, 0] ++
      List.replicate 12 0) = .ok c) := by
  have h1 := corrected_C5 (98 :: List.replicate 39 0)
    ([1, 0, 0, 20] ++ List.replicate 16 0)
    { «Type» := 1, Flags := 0, Length := 20 } (by decide) (by decide) (by rfl)
  have h2 := corrected_C5 (69 :: List.replicate 39 0)
    ([4, 0, 0, 8, 0, 1, 0, 0] ++ List.replicate 12 0)
    { «Type» := 4, Flags := 0, Length := 8 } (by decide) (by decide) (by rfl)
  obtain ⟨a1, a2, a3, a4, a5, a6, a7, a8, a9, a10, a11, a12, a13, a14, a15, a16, a17⟩ := h1
  obtain ⟨b1, b2, b3, b4, b5, b6, b7, b8, b9, b10, b11, b12, b13, b14, b15, b16, b17⟩ := h2
  exact ⟨a1 (by decide), b2 (by decide), a3 (by decide), b5 (by decide),
    a14 (Or.inl rfl), (b15 (Or.inl rfl)).trans (by rfl), a16, b17⟩



/-- C2: an unrecognised tag at each dispatch point (link type, ether-type,
IP protocol, SCTP chunk type, SCTP parameter type) yields that layer's
Unknown variant holding the remaining undecoded bytes, with no error: the
unknown-link/internet/transport decoders succeed storing the whole
remaining byte sequence, and the unknown chunk and parameter decoders
succeed storing everything after the 4-byte header whenever the header
itself was readable. -/
theorem confirmed_C2 (o : ByteOrder) (lt : Nat) (s1 s2 s3 : Bytes)
    (et proto : Nat) (hdr : SCTPChunkHeader) (dc : Bytes)
    (phdr : SCTPChunkParameterHeader) (dp : Bytes)
    (hlt : lt ≠ 1)
    (het : et ≠ 2048) (het2 : et ≠ 34525)
    (hpr : proto ≠ 6) (hpr2 : proto ≠ 17) (hpr3 : proto ≠ 132)
    (hct : hdr.Type ∉ ([0, 1, 2, 3, 4, 5, 6, 7, 8, 9, 10, 11, 14] : List Nat))
    (hcl : 4 ≤ dc.length)
    (hpt : phdr.Type ∉ ([5, 6, 9] : List Nat))
    (hpl : 4 ≤ dp.length) :
    readLinkData o lt s1 =
      (.unknown { data := some (.unknown { data := some (.unknown { data := s1 }) }) },
       none) ∧
    readInternetLayer et s2 = (.unknown { data := some (.unknown { data := s2 }) }, none) ∧
    readTransportLayer proto s3 = (.unknown { data := s3 }, none) ∧
    (∀ h2, SCTPChunkHeader.FromBytes dc = .ok h2 →
      parseSCTPChunk hdr dc = .ok (.unknown { header := h2, Data := dc.drop 4 })) ∧
    (∀ p2, SCTPChunkParameterHeader.FromBytes (dp.take 4) = .ok p2 →
      parseSCTPInitChunkParameter phdr dp = .ok (.unknown { header := p2, Data := dp.drop 4 })) ∧
    (∀ p2, SCTPChunkParameterHeader.FromBytes (dp.take 4) = .ok p2 →
      parseSCTPErrorChunkParameter phdr dp = .ok (.unknown { header := p2, Data := dp.drop 4 })) := by
  simp only [List.mem_cons, List.not_mem_nil, or_false, not_or] at hct hpt
  obtain ⟨hc0, hc1, hc2, hc3, hc4, hc5, hc6, hc7, hc8, hc9, hc10, hc11, hc14⟩ := hct
  obtain ⟨hp5, hp6, hp9⟩ := hpt
  refine ⟨?_, ?_, ?_, ?_, ?_, ?_⟩
  · simp [readLinkData, hlt, UnknownLink.ReadFrom, UnknownINet.ReadFrom,
      UnknownTransport.ReadFrom]
  · simp [readInternetLayer, het, het2, UnknownINet.ReadFrom,
      UnknownTransport.ReadFrom]
  · simp [readTransportLayer, hpr, hpr2, hpr3, UnknownTransport.ReadFrom]
  · intro h2 hh2
    simp [parseSCTPChunk, hc0, hc1, hc2, hc3, hc4, hc5, hc6, hc7, hc8, hc9,
      hc10, hc11, hc14, SCTPChunkUnknown.FromBytes, hh2, Except.map]
  · intro p2 hp2
    simp [parseSCTPInitChunkParameter, hp5, hp6, hp9,
      SCTPChunkParameterUnknown.FromBytes, goSlice, hpl, hp2]
  · intro p2 hp2
    simp [parseSCTPErrorChunkParameter, SCTPChunkParameterUnknown.FromBytes,
      goSlice, hpl, hp2]

theorem confirmed_C2_witness :
    readLinkData .big 248 [1, 2, 3] =
      (.unknown { data := some (.unknown { data := some (.unknown { data := [1, 2, 3] }) }) },
       none) ∧
    readInternetLayer 2054 [4, 5] = (.unknown { data := some (.unknown { data := [4, 5] }) }, none) ∧
    readTransportLayer 1 [6] = (.unknown { data := [6] }, none) ∧
    parseSCTPChunk { «Type» := 13, Flags := 0, Length := 4 } [13, 0, 0, 4, 9] =
      .ok (.unknown { header := { «Type» := 13, Flags := 0, Length := 4 }, Data := [9] }) ∧
    parseSCTPInitChunkParameter { «Type» := 2, Length := 4 } [0, 2, 0, 4, 8] =
      .ok (.unknown { header := { «Type» := 2, Length := 4 }, Data := [8] }) := by
  have h := confirmed_C2 .big 248 [1, 2, 3] [4, 5] [6] 2054 1
    { «Type» := 13, Flags := 0, Length := 4 } [13, 0, 0, 4, 9]
    { «Type» := 2, Length := 4 } [0, 2, 0, 4, 8]
    (by decide) (by decide) (by decide) (by decide) (by decide) (by decide)
    (by decide) (by decide) (by decide) (by decide)
  exact ⟨h.1, h.2.1, h.2.2.1,
    h.2.2.2.1 { «Type» := 13, Flags := 0, Length := 4 } (by rfl),
    h.2.2.2.2.1 { «Type» := 2, Length := 4 } (by rfl)⟩



theorem sctpChunkHeader_ok_length {d : Bytes} {h : SCTPChunkHeader}
    (hh : SCTPChunkHeader.FromBytes d = .ok h) : 4 ≤ d.length := by
  by_contra hlt
  rw [Nat.not_le] at hlt
  simp [SCTPChunkHeader.FromBytes, hlt] at hh

theorem sctpChunkParameterHeader_ok_length {d : Bytes}
    {h : SCTPChunkParameterHeader}
    (hh : SCTPChunkParameterHeader.FromBytes d = .ok h) : 4 ≤ d.length := by
  by_contra hlt
  rw [Nat.not_le] at hlt
  simp [SCTPChunkParameterHeader.FromBytes, hlt] at hh

theorem sctpChunkData_payload {d : Bytes} {c : SCTPChunkData}
    (h : SCTPChunkData.FromBytes d = .ok c) : c.Data = d.drop 16 := by
  unfold SCTPChunkData.FromBytes at h
  split at h
  · simp at h
  · split at h
    · simp at h
    · split at h
      · simp at h
      · injection h with h
        rw [← h]

def c4input : Bytes := [0, 0, 0, 17, 0, 0, 0, 1, 0, 2, 0, 3, 0, 0, 0, 9, 171, 205, 239, 153]

/-- The DATA chunk record decoded from `c4input`: its payload holds the
three padding bytes 205, 239, 153 after the single declared payload byte
171. -/
def c4chunk : SCTPChunkData :=
  { header := { «Type» := 0, Flags := 0, Length := 17 }
    TSN := 1, StreamIdentifier := 2, StreamSequenceNumber := 3
    PayloadProtocolIdentifier := 9, Data := [171, 205, 239, 153] }

/-- C4 as stated is false for the padding part: the chunk slice handed to a
variant decoder still contains the padding bytes, and the DATA decoder
stores everything after its fixed 16 bytes as the payload.  This DATA chunk
declares length 17 (one payload byte, three padding bytes); the decoded
record's payload is 4 bytes long and contains the padding verbatim. -/
theorem corrected_C4_cex :
    parseSCTPChunks c4input = .ok [.dataChunk c4chunk] ∧
    c4chunk.Data.length ≠ 17 - 16 := by
  constructor
  · have hh : SCTPChunkHeader.FromBytes c4input =
        .ok { «Type» := 0, Flags := 0, Length := 17 } := by rfl
    have h2 := parseSCTPChunks_cons (by decide) hh (by decide)
    have h3 : parseSCTPChunk { «Type» := 0, Flags := 0, Length := 17 }
        (c4input.take 20) = .ok (.dataChunk c4chunk) := by rfl
    have h4 : c4input.drop 20 = [] := by rfl
    rw [h2]
    norm_num [h3, h4, parseSCTPChunks_nil]
  · decide

/-- C4 amended: each chunk consumes exactly its declared length rounded up
to the next multiple of 4, computed in 16-bit arithmetic (with
InsufficientLength when fewer bytes remain) -- but the rounded slice,
padding included, is what the variant decoder receives, and a DATA chunk's
decoded payload is everything after its first 16 bytes, so the padding
bytes do appear in the record's payload; parameter records are sliced to
exactly their declared length, with no padding consumed between
parameters. -/
theorem corrected_C4 (data : Bytes) (header : SCTPChunkHeader)
    (hh : SCTPChunkHeader.FromBytes data = .ok header)
    (pdata : Bytes) (pheader : SCTPChunkParameterHeader)
    (hph : SCTPChunkParameterHeader.FromBytes pdata = .ok pheader) :
    (data.length < (header.Length + (4 - header.Length % 4) % 4) % 65536 →
      parseSCTPChunks data = .error .InsufficientLength) ∧
    (¬ data.length < (header.Length + (4 - header.Length % 4) % 4) % 65536 →
      parseSCTPChunks data =
        (match parseSCTPChunk header
            (data.take ((header.Length + (4 - header.Length % 4) % 4) % 65536)) with
         | .error e => .error e
         | .ok chunk =>
           match parseSCTPChunks
               (data.drop ((header.Length + (4 - header.Length % 4) % 4) % 65536)) with
           | .error e => .error e
           | .ok chunks => .ok (chunk :: chunks))) ∧
    (∀ c, SCTPChunkData.FromBytes
        (data.take ((header.Length + (4 - header.Length % 4) % 4) % 65536)) = .ok c →
      c.Data =
        (data.take ((header.Length + (4 - header.Length % 4) % 4) % 65536)).drop 16) ∧
    (pdata.length < pheader.Length →
      parseSCTPChunkParametersInit pdata = .error .InsufficientLength) ∧
    (¬ pdata.length < pheader.Length →
      parseSCTPChunkParametersInit pdata =
        (match parseSCTPInitChunkParameter pheader (pdata.take pheader.Length) with
         | .error e => .error e
         | .ok p =>
           match parseSCTPChunkParametersInit (pdata.drop pheader.Length) with
           | .error e => .error e
           | .ok ps => .ok (p :: ps))) := by
  have h0 : data.length ≠ 0 := by
    have := sctpChunkHeader_ok_length hh
    omega
  have hp0 : pdata.length ≠ 0 := by
    have := sctpChunkParameterHeader_ok_length hph
    omega
  refine ⟨?_, ?_, ?_, ?_, ?_⟩
  · intro hlt
    exact parseSCTPChunks_short h0 hh hlt
  · intro hge
    exact parseSCTPChunks_cons h0 hh hge
  · intro c hc
    exact sctpChunkData_payload hc
  · intro hlt
    exact parseSCTPChunkParametersInit_short hp0 hph hlt
  · intro hge
    exact parseSCTPChunkParametersInit_cons hp0 hph hge

theorem corrected_C4_witness :
    SCTPChunkHeader.FromBytes c4input = .ok { «Type» := 0, Flags := 0, Length := 17 } ∧
    SCTPChunkParameterHeader.FromBytes [0, 2, 0, 6, 7, 8] = .ok { «Type» := 2, Length := 6 } ∧
    parseSCTPChunkParametersInit [0, 2, 0, 6, 7, 8] =
      .ok [.unknown { header := { «Type» := 2, Length := 6 }, Data := [7, 8] }] := by
  refine ⟨by rfl, by rfl, ?_⟩
  have h := corrected_C4 c4input { «Type» := 0, Flags := 0, Length := 17 } (by rfl)
    [0, 2, 0, 6, 7, 8] { «Type» := 2, Length := 6 } (by rfl)
  have h5 := h.2.2.2.2 (by decide)
  rw [h5]
  norm_num [show parseSCTPInitChunkParameter { «Type» := 2, Length := 6 }
      [0, 2, 0, 6, 7, 8] =
      .ok (.unknown { header := { «Type» := 2, Length := 6 }, Data := [7, 8] }) from by rfl,
    parseSCTPChunkParametersInit_nil]



/-- C1 amended: when Parse reaches the frame loop, the returned Packets are
the packets of the frames that decoded without error, followed by exactly
one additional Packet -- the one the failing (or end-of-stream) iteration
was filling, which the loop appends unconditionally -- and the returned
error is the error of that first failing iteration, with io.EOF converted
to nil. -/
theorem corrected_C1 (s : Bytes) (b : Bool) (o : ByteOrder) (s1 : Bytes)
    (file : PcapFile) (s2 : Bytes)
    (hm : checkMagicNum s = .ok (b, o, s1))
    (hf : populateFileHeader o s1 = (file, none, s2)) :
    (Parse s).1.Packets =
      goodFrames o file.LinkType s2 ++ [failedPacket o file.LinkType s2] ∧
    (Parse s).2 = (if firstLoopError o file.LinkType s2 = .ioEOF then none
                   else some (firstLoopError o file.LinkType s2)) := by
  rw [Parse_eq hm hf, parseLoop_spec]
  constructor
  · rfl
  · simp

def c1input : Bytes :=
  magic ++ [0, 2, 0, 4, 0, 0, 0, 0, 0, 0, 0, 0, 0, 0, 255, 255, 0, 0, 0, 1] ++
    [0, 0, 0, 0, 0, 0, 0, 0, 0, 0, 0, 3, 0, 0, 0, 3] ++ [1, 2, 3]

def c1file : PcapFile :=
  { MajorVersion := 2, MinorVersion := 4, TZCorrection := 0, SigFigs := 0
    MaxLen := 65535, LinkType := 1, Packets := [] }

def c1packet : Packet :=
  { Timestamp := 0, IncludedLen := 3, ActualLen := 3
    Data := some (.ethernet zeroEthernetFrame) }

/-- C1 as stated is false: on this input the very first frame fails to
decode (its 3-byte Ethernet payload is too short for the destination MAC),
so the claim requires the Packets slice to contain exactly 0 fully decoded
frames; instead Parse returns the frame-1 error together with a 1-element
Packets slice holding the partially decoded frame. -/
theorem corrected_C1_cex :
    (parsePacket .big 1 (c1input.drop 24)).2.1 = some .ioUnexpectedEOF ∧
    (Parse c1input).2 = some .ioUnexpectedEOF ∧
    (Parse c1input).1.Packets.length = 1 := by
  have hp : parsePacket .big 1 (c1input.drop 24) =
      (c1packet, some .ioUnexpectedEOF, []) := by rfl
  have hm : checkMagicNum c1input = .ok (true, .big, c1input.drop 4) := by rfl
  have hf : populateFileHeader .big (c1input.drop 4) =
      (c1file, none, c1input.drop 24) := by rfl
  have hP := Parse_eq hm hf
  have hlt : c1file.LinkType = 1 := rfl
  rw [hlt, parseLoop_stop hp] at hP
  refine ⟨by rw [hp], ?_, ?_⟩
  · rw [hP]
    rfl
  · rw [hP]
    rfl

theorem corrected_C1_witness :
    checkMagicNum c1input = .ok (true, .big, c1input.drop 4) ∧
    populateFileHeader .big (c1input.drop 4) = (c1file, none, c1input.drop 24) ∧
    (Parse c1input).1.Packets =
      goodFrames .big c1file.LinkType (c1input.drop 24) ++
        [failedPacket .big c1file.LinkType (c1input.drop 24)] ∧
    (Parse c1input).2 =
      (if firstLoopError .big c1file.LinkType (c1input.drop 24) = .ioEOF then none
       else some (firstLoopError .big c1file.LinkType (c1input.drop 24))) := by
  refine ⟨by rfl, by rfl, ?_⟩
  exact corrected_C1 c1input true .big (c1input.drop 4) c1file
    (c1input.drop 24) (by rfl) (by rfl)



/-- C3 amended: Parse returns a nil error when the per-frame header read
hits end-of-input with zero bytes consumed, and more generally whenever the
first failing step of the frame loop reports the reader's clean io.EOF --
which also happens when end-of-input falls at a 4-byte field boundary
inside the per-frame header, or at the very start of a layer decode.  Every
other first failure e is surfaced as a non-nil error alongside the decoded
frames (plus the unconditionally appended packet of the failing iteration),
and a mid-field short read of the per-frame header yields
InsufficientLength. -/
theorem corrected_C3 (s : Bytes) (b : Bool) (o : ByteOrder) (s1 : Bytes)
    (file : PcapFile) (s2 : Bytes)
    (hm : checkMagicNum s = .ok (b, o, s1))
    (hf : populateFileHeader o s1 = (file, none, s2)) :
    (s2 = [] → (Parse s).2 = none) ∧
    (firstLoopError o file.LinkType s2 = .ioEOF → (Parse s).2 = none) ∧
    (∀ e, firstLoopError o file.LinkType s2 = e → e ≠ .ioEOF →
      (Parse s).2 = some e ∧
      (Parse s).1.Packets =
        goodFrames o file.LinkType s2 ++ [failedPacket o file.LinkType s2]) ∧
    (∀ t : Bytes, 0 < t.length → t.length < 16 → t.length % 4 ≠ 0 →
      (readPacketHeader o t).2.1 = some .InsufficientLength) := by
  have hmask : ∀ eo, firstLoopError o file.LinkType s2 = eo → eo = .ioEOF →
      (Parse s).2 = none := by
    intro eo heo heq
    rw [Parse_eq hm hf, parseLoop_spec]
    simp [heo, heq]
  refine ⟨?_, fun hfe => hmask _ hfe rfl, ?_, ?_⟩
  · intro h2
    have hp0 : parsePacket o file.LinkType s2 = (zeroPacket, some .ioEOF, []) := by
      subst h2
      simp [parsePacket, readPacketHeader, readU32]
    exact hmask _ (firstLoopError_stop hp0) rfl
  · intro e hfe hne
    rw [Parse_eq hm hf, parseLoop_spec]
    constructor
    · simp [hfe, hne]
    · rfl
  · intro t h1 h2 h3
    rcases t with _ | ⟨b0, _ | ⟨b1, _ | ⟨b2, _ | ⟨b3, _ | ⟨b4, _ | ⟨b5, _ | ⟨b6,
      _ | ⟨b7, _ | ⟨b8, _ | ⟨b9, _ | ⟨b10, _ | ⟨b11, _ | ⟨b12, _ | ⟨b13,
      _ | ⟨b14, _ | ⟨b15, r⟩⟩⟩⟩⟩⟩⟩⟩⟩⟩⟩⟩⟩⟩⟩⟩ <;>
      simp only [List.length_cons, List.length_nil] at h1 h2 h3 <;>
      first
        | omega
        | simp [readPacketHeader, readU32]

def c3input : Bytes :=
  magic ++ [0, 2, 0, 4, 0, 0, 0, 0, 0, 0, 0, 0, 0, 0, 255, 255, 0, 0, 0, 1] ++
    [0, 0, 0, 0, 0, 0, 0, 0, 0, 0, 0, 0, 0, 0, 0, 0]

def c3file : PcapFile :=
  { MajorVersion := 2, MinorVersion := 4, TZCorrection := 0, SigFigs := 0
    MaxLen := 65535, LinkType := 1, Packets := [] }

def c3packet : Packet :=
  { Timestamp := 0, IncludedLen := 0, ActualLen := 0
    Data := some (.ethernet zeroEthernetFrame) }

/-- C3 as stated is false: on this input the per-frame header of frame 1 is
read completely (no error), the Ethernet layer decode then fails with
io.EOF on its empty 0-byte payload, yet Parse converts that failure to a
nil error instead of surfacing it. -/
theorem corrected_C3_cex :
    (readPacketHeader .big (c3input.drop 24)).2.1 = none ∧
    (parsePacket .big 1 (c3input.drop 24)).2.1 = some .ioEOF ∧
    (Parse c3input).2 = none := by
  have hp : parsePacket .big 1 (c3input.drop 24) =
      (c3packet, some .ioEOF, []) := by rfl
  have hm : checkMagicNum c3input = .ok (true, .big, c3input.drop 4) := by rfl
  have hf : populateFileHeader .big (c3input.drop 4) =
      (c3file, none, c3input.drop 24) := by rfl
  have hP := Parse_eq hm hf
  have hlt : c3file.LinkType = 1 := rfl
  rw [hlt, parseLoop_stop hp] at hP
  exact ⟨by rfl, by rw [hp], by rw [hP]; rfl⟩

theorem corrected_C3_witness :
    checkMagicNum (magic ++ [0, 2, 0, 4, 0, 0, 0, 0, 0, 0, 0, 0, 0, 0, 255, 255, 0, 0, 0, 99]) =
      .ok (true, .big, [0, 2, 0, 4, 0, 0, 0, 0, 0, 0, 0, 0, 0, 0, 255, 255, 0, 0, 0, 99]) ∧
    populateFileHeader .big [0, 2, 0, 4, 0, 0, 0, 0, 0, 0, 0, 0, 0, 0, 255, 255, 0, 0, 0, 99] =
      ({ MajorVersion := 2, MinorVersion := 4, TZCorrection := 0, SigFigs := 0
         MaxLen := 65535, LinkType := 99, Packets := [] }, none, []) ∧
    (Parse (magic ++ [0, 2, 0, 4, 0, 0, 0, 0, 0, 0, 0, 0, 0, 0, 255, 255, 0, 0, 0, 99])).2 = none := by
  refine ⟨by rfl, by rfl, ?_⟩
  have h := corrected_C3
    (magic ++ [0, 2, 0, 4, 0, 0, 0, 0, 0, 0, 0, 0, 0, 0, 255, 255, 0, 0, 0, 99])
    true .big [0, 2, 0, 4, 0, 0, 0, 0, 0, 0, 0, 0, 0, 0, 255, 255, 0, 0, 0, 99]
    { MajorVersion := 2, MinorVersion := 4, TZCorrection := 0, SigFigs := 0
      MaxLen := 65535, LinkType := 99, Packets := [] }
    [] (by rfl) (by rfl)
  exact h.1 rfl

end Gopcap
